import Mathlib

/-!
Verification development for the industrial-motor digital-twin simulator.

The Python sources under `src/simulator` and `src/ui` are shallowly embedded:
pure functions become Lean functions over the reals, every call to the
process-global numpy PRNG reads one value from a fixed oracle `g : Nat -> Real`
at a running index (the index plays the role of the generator state, the
oracle the role of the seeded Mersenne-Twister stream), and Python runtime
failures (attribute lookups on absent dataclass fields, keyword-argument
binding errors) are modelled explicitly with an `Except`-style result.
-/

namespace MotorSim

open Classical

/-! ## Enumerations (src/simulator/state.py) -/

inductive HealthState where
  | HEALTHY
  | WARNING
  | CRITICAL
deriving DecidableEq, Repr

/-- Serialised form, `HealthState.value` in the source. -/
def HealthState.value : HealthState → String
  | .HEALTHY => "Healthy"
  | .WARNING => "Warning"
  | .CRITICAL => "Critical"

inductive DegradationStage where
  | STAGE_0_HEALTHY
  | STAGE_1_EARLY
  | STAGE_2_RAPID
deriving DecidableEq, Repr

/-- Numeric enum value of a degradation stage, as emitted in records. -/
def DegradationStage.value : DegradationStage → ℕ
  | .STAGE_0_HEALTHY => 0
  | .STAGE_1_EARLY => 1
  | .STAGE_2_RAPID => 2

/-! ## Configuration dictionaries (src/simulator/config.py, config_realistic.py)

Keys that the simulator reads with a bare `config[key]` are mandatory fields;
keys read through `config.get(key, default)` are `Option`-valued, with a getter
applying the source's default. -/

structure Config where
  ambient_temp : ℝ
  base_friction : ℝ
  k_friction : ℝ
  alpha : ℝ
  beta : ℝ
  v_base : ℝ
  k_v_health : ℝ
  k_v_align : ℝ
  base_current : ℝ
  k_current : ℝ
  nominal_rpm : ℝ
  noise_temperature : ℝ
  noise_vibration : ℝ
  noise_current : ℝ
  noise_rpm : ℝ
  spike_prob : ℝ
  vibration_spike : ℝ
  drop_prob : ℝ
  temp_drift : ℝ
  vibration_drift : ℝ
  time_step_minutes : Option ℝ := none
  vibration_sample_duration : Option ℕ := none
  vibration_sample_rate : Option ℕ := none
  healthy_threshold : Option ℝ := none
  warning_threshold : Option ℝ := none
  critical_threshold : Option ℝ := none
  min_hours_to_critical : Option ℝ := none
  max_hours_to_critical : Option ℝ := none
  stage_0_min_pct : Option ℝ := none
  stage_0_max_pct : Option ℝ := none
  stage_0_base_health : Option ℝ := none
  stage_0_noise_std : Option ℝ := none
  stage_1_min_pct : Option ℝ := none
  stage_1_max_pct : Option ℝ := none
  stage_1_power_exp_min : Option ℝ := none
  stage_1_power_exp_max : Option ℝ := none
  base_decay : Option ℝ := none
  noise_scale : Option ℝ := none
  enable_sensor_imperfections : Option Bool := none

def Config.timeStepMinutes (c : Config) : ℝ := c.time_step_minutes.getD 5

def Config.vibrationSampleDuration (c : Config) : ℕ := c.vibration_sample_duration.getD 20

def Config.vibrationSampleRate (c : Config) : ℕ := c.vibration_sample_rate.getD 10

def Config.healthyThreshold (c : Config) : ℝ := c.healthy_threshold.getD 0.7

def Config.warningThreshold (c : Config) : ℝ := c.warning_threshold.getD 0.4

def Config.minHoursToCritical (c : Config) : ℝ := c.min_hours_to_critical.getD 1000

def Config.maxHoursToCritical (c : Config) : ℝ := c.max_hours_to_critical.getD 3000

def Config.stage0MinPct (c : Config) : ℝ := c.stage_0_min_pct.getD 0.70

def Config.stage0MaxPct (c : Config) : ℝ := c.stage_0_max_pct.getD 0.85

def Config.stage0BaseHealth (c : Config) : ℝ := c.stage_0_base_health.getD 0.95

def Config.stage0NoiseStd (c : Config) : ℝ := c.stage_0_noise_std.getD 0.01

def Config.stage1MinPct (c : Config) : ℝ := c.stage_1_min_pct.getD 0.12

def Config.stage1MaxPct (c : Config) : ℝ := c.stage_1_max_pct.getD 0.22

def Config.stage1PowerExpMin (c : Config) : ℝ := c.stage_1_power_exp_min.getD 1.5

def Config.stage1PowerExpMax (c : Config) : ℝ := c.stage_1_power_exp_max.getD 3.5

def Config.enableSensorImperfections (c : Config) : Bool :=
  c.enable_sensor_imperfections.getD true

/-- DEFAULT_CONFIG from src/simulator/config.py (keys the engine reads). -/
def DEFAULT_CONFIG : Config where
  ambient_temp := 25.0
  base_friction := 0.05
  k_friction := 0.4
  alpha := 0.8
  beta := 0.1
  v_base := 0.5
  k_v_health := 6.0
  k_v_align := 3.0
  base_current := 10.0
  k_current := 1.2
  nominal_rpm := 1800
  noise_temperature := 0.6
  noise_vibration := 0.15
  noise_current := 0.4
  noise_rpm := 8.0
  spike_prob := 0.005
  vibration_spike := 3.0
  drop_prob := 0.01
  temp_drift := 5e-4
  vibration_drift := 2e-4
  time_step_minutes := some 5
  vibration_sample_duration := some 20
  vibration_sample_rate := some 10
  healthy_threshold := some 0.7
  warning_threshold := some 0.4
  stage_0_min_pct := some 0.70
  stage_0_max_pct := some 0.85
  stage_0_base_health := some 0.95
  stage_0_noise_std := some 0.01
  stage_1_min_pct := some 0.12
  stage_1_max_pct := some 0.22
  stage_1_power_exp_min := some 1.5
  stage_1_power_exp_max := some 3.5

/-- REALISTIC_CONFIG from src/simulator/config_realistic.py; keys such as
time_step_minutes or the health thresholds are absent there, so the getters
above fall back to the in-code defaults. -/
def REALISTIC_CONFIG : Config where
  ambient_temp := 25.0
  base_friction := 0.05
  k_friction := 0.4
  alpha := 0.6
  beta := 0.15
  v_base := 0.5
  k_v_health := 5.0
  k_v_align := 2.5
  base_current := 10.0
  k_current := 1.0
  nominal_rpm := 1800
  noise_temperature := 0.15
  noise_vibration := 0.04
  noise_current := 0.12
  noise_rpm := 3.0
  spike_prob := 0.002
  vibration_spike := 1.2
  drop_prob := 0.003
  temp_drift := 1e-4
  vibration_drift := 5e-5
  base_decay := some 0.0045

/-! ## The PRNG oracle

All numpy draws go through the single process-global generator; a seed fully
determines its output stream.  We model the seeded stream as an oracle
`g : Nat -> Real` and thread the consumption index through the code.  Each
distribution call consumes exactly one oracle value. -/

/-- np.random.normal(0, std): one draw, scaled by the standard deviation. -/
noncomputable def npNormal (g : ℕ → ℝ) (std : ℝ) (k : ℕ) : ℝ × ℕ :=
  (std * g k, k + 1)

/-- np.random.uniform(a, b): one draw mapped affinely onto the support. -/
noncomputable def npUniform (g : ℕ → ℝ) (a b : ℝ) (k : ℕ) : ℝ × ℕ :=
  (a + (b - a) * g k, k + 1)

/-- np.random.random() / np.random.rand(): one raw unit draw. -/
def npRandom (g : ℕ → ℝ) (k : ℕ) : ℝ × ℕ :=
  (g k, k + 1)

/-- np.random.randint(lo, hi): one draw mapped into the set lo..hi-1. -/
noncomputable def npRandint (g : ℕ → ℝ) (lo hi : ℕ) (k : ℕ) : ℕ × ℕ :=
  (lo + (Int.natAbs ⌊g k⌋) % (hi - lo), k + 1)

/-- np.random.choice([-1, 1]): one draw mapped onto a sign. -/
noncomputable def npChoicePM1 (g : ℕ → ℝ) (k : ℕ) : ℝ × ℕ :=
  (if g k < 1 / 2 then -1 else 1, k + 1)

/-- np.clip(x, lo, hi). -/
noncomputable def npClip (x lo hi : ℝ) : ℝ := min (max x lo) hi

/-! ## Degradation and observation kernel (src/simulator/physics.py) -/

/-- determine_health_state(health_value, healthy_threshold, warning_threshold). -/
noncomputable def determine_health_state (health_value healthy_threshold warning_threshold : ℝ) :
    HealthState :=
  if healthy_threshold ≤ health_value then .HEALTHY
  else if warning_threshold ≤ health_value then .WARNING
  else .CRITICAL

/-- determine_degradation_stage(hours, s0, s1, s2); the stage-2 duration is
unused in the source body as well. -/
noncomputable def determine_degradation_stage (hours_since_maintenance s0 s1 s2 : ℝ) :
    DegradationStage :=
  if hours_since_maintenance < s0 then .STAGE_0_HEALTHY
  else if hours_since_maintenance < s0 + s1 then .STAGE_1_EARLY
  else .STAGE_2_RAPID

/-- update_motor_health: three-stage degradation kernel.  Consumes exactly one
normal draw in every branch, as in the source. -/
noncomputable def update_motor_health (g : ℕ → ℝ) (current_health hours_since_maintenance : ℝ)
    (degradation_stage : DegradationStage) (s0 s1 s2 stage_1_power_exp stage_2_exp_coeff : ℝ)
    (cfg : Config) (k : ℕ) : ℝ × ℕ :=
  let time_step_hours := cfg.timeStepMinutes / 60
  match degradation_stage with
  | .STAGE_0_HEALTHY =>
      let base_health := cfg.stage0BaseHealth
      let noise_std := cfg.stage0NoiseStd
      let tiny_decay := if 0 < s0 then 0.05 / s0 * time_step_hours else 0
      let (noise, k1) := npNormal g (noise_std * time_step_hours) k
      (npClip (current_health - tiny_decay + noise) (base_health - 0.03) (base_health + 0.02), k1)
  | .STAGE_1_EARLY =>
      let time_in_stage := hours_since_maintenance - s0
      let a := if 0 < s1 then 0.45 / (s1 ^ stage_1_power_exp) else 0
      let health_from_model := 0.95 - a * (time_in_stage ^ stage_1_power_exp)
      let (noise, k1) := npNormal g 0.02 k
      (min (health_from_model + noise) current_health, k1)
  | .STAGE_2_RAPID =>
      let time_in_stage := hours_since_maintenance - s0 - s1
      let c := if 0 < s2 then Real.log 0.30 / s2 else -0.1
      let decay := 0.5 * Real.exp (c * time_in_stage)
      let health_from_model := 0.50 - decay
      let (noise, k1) := npNormal g 0.01 k
      (max 0 (min (health_from_model + noise) current_health), k1)

/-- update_friction(base_friction, motor_health, k_friction). -/
noncomputable def update_friction (base_friction motor_health k_friction : ℝ) : ℝ :=
  base_friction + k_friction * (1 - motor_health)

/-- update_temperature(temp, ambient_temp, friction, load, alpha, beta). -/
noncomputable def update_temperature (temp ambient_temp friction load alpha beta : ℝ) : ℝ :=
  temp + alpha * friction * load - beta * (temp - ambient_temp)

/-- compute_vibration: RMS of duration*rate noisy samples around the base level. -/
noncomputable def compute_vibration (g : ℕ → ℝ) (motor_health misalignment v_base k_health k_align : ℝ)
    (duration sample_rate : ℕ) (k : ℕ) : ℝ × ℕ :=
  let base_vib := v_base + k_health * (1 - motor_health) ^ 2 + k_align * misalignment
  let num_samples := duration * sample_rate
  let sr := (List.range num_samples).foldl
    (fun (acc : List ℝ × ℕ) _ =>
      let (noise, k1) := npNormal g (base_vib * 0.05) acc.2
      (acc.1 ++ [base_vib + noise], k1))
    ([], k)
  (Real.sqrt (((sr.1.map (fun s => s ^ 2)).sum) / num_samples), sr.2)

/-- compute_current(base_current, load, motor_health, k_current). -/
noncomputable def compute_current (base_current load motor_health k_current : ℝ) : ℝ :=
  base_current * load * (1 + k_current * (1 - motor_health))

/-- compute_rpm(nominal_rpm, misalignment). -/
noncomputable def compute_rpm (nominal_rpm misalignment : ℝ) : ℝ :=
  nominal_rpm * (1 - 0.05 * misalignment)

/-! ## Noise helpers (src/simulator/noise.py) -/

/-- add_gaussian_noise(value, std). -/
noncomputable def add_gaussian_noise (g : ℕ → ℝ) (value std : ℝ) (k : ℕ) : ℝ × ℕ :=
  let (noise, k1) := npNormal g std k
  (value + noise, k1)

/-- add_spike(value, probability, spike_magnitude): vibration-only spikes. -/
noncomputable def add_spike (g : ℕ → ℝ) (value probability spike_magnitude : ℝ) (k : ℕ) : ℝ × ℕ :=
  let (u, k1) := npRandom g k
  if u < probability then
    let (sign, k2) := npChoicePM1 g k1
    (value + spike_magnitude * sign, k2)
  else (value, k1)

/-- maybe_drop(value, drop_prob): None models a missing reading. -/
noncomputable def maybe_drop (g : ℕ → ℝ) (value : ℝ) (drop_prob : ℝ) (k : ℕ) : Option ℝ × ℕ :=
  let (u, k1) := npRandom g k
  (if u < drop_prob then none else some value, k1)

/-! ## Motor hidden state (src/simulator/state.py) -/

structure MotorHiddenState where
  motor_health : ℝ
  health_state : HealthState
  degradation_stage : DegradationStage
  load_factor : ℝ
  misalignment : ℝ
  friction_coeff : ℝ
  hours_since_maintenance : ℝ
  target_hours_to_critical : ℝ
  stage_0_duration_hours : ℝ
  stage_1_duration_hours : ℝ
  stage_2_duration_hours : ℝ
  stage_1_power_exponent : ℝ
  stage_2_exp_coefficient : ℝ

/-- Python attribute read of a float-valued attribute on a MotorHiddenState
dataclass instance.  The dataclass declares exactly the fields listed in
state.py, and nothing in the program ever setattr's a new attribute onto it,
so reading any other name raises AttributeError. -/
noncomputable def MotorHiddenState.pyGetFloat (s : MotorHiddenState) : String → Option ℝ
  | "motor_health" => some s.motor_health
  | "load_factor" => some s.load_factor
  | "misalignment" => some s.misalignment
  | "friction_coeff" => some s.friction_coeff
  | "hours_since_maintenance" => some s.hours_since_maintenance
  | "target_hours_to_critical" => some s.target_hours_to_critical
  | "stage_0_duration_hours" => some s.stage_0_duration_hours
  | "stage_1_duration_hours" => some s.stage_1_duration_hours
  | "stage_2_duration_hours" => some s.stage_2_duration_hours
  | "stage_1_power_exponent" => some s.stage_1_power_exponent
  | "stage_2_exp_coefficient" => some s.stage_2_exp_coefficient
  | _ => none

/-! ## Sensor imperfection layer (src/simulator/sensor_imperfections.py) -/

structure SensorImperfectionState where
  accumulated_bias : ℝ := 0
  bias_drift_rate : ℝ := 0
  noise_multiplier : ℝ := 1
  is_flatlined : Bool := false
  flatline_value : Option ℝ := none
  flatline_countdown : ℤ := 0
  is_intermittent : Bool := false
  intermittent_countdown : ℤ := 0

structure SensorImperfectionSimulator where
  enable_imperfections : Bool
  sensors : List (String × SensorImperfectionState) := []
  timestep : ℕ := 0

/-- Class constants of SensorImperfectionSimulator. -/
def drift_start_prob : ℝ := 0.002

def flatline_start_prob : ℝ := 0.0005

def intermittent_prob : ℝ := 0.001

/-- _update_sensor_state: one sensor's per-tick fault-state update. -/
noncomputable def updateSensorState (g : ℕ → ℝ) (st : SensorImperfectionState) (k : ℕ) :
    SensorImperfectionState × ℕ :=
  -- bias drift onset
  let (st, k) :=
    if st.bias_drift_rate = 0 then
      let (u, k1) := npRandom g k
      if u < drift_start_prob then
        let (rate, k2) := npUniform g (1e-4) (5e-4) k1
        ({ st with bias_drift_rate := rate }, k2)
      else (st, k1)
    else (st, k)
  -- drift accumulation with random sign
  let (st, k) :=
    if 0 < st.bias_drift_rate then
      let (sign, k1) := npChoicePM1 g k
      ({ st with accumulated_bias := st.accumulated_bias + st.bias_drift_rate * sign }, k1)
    else (st, k)
  -- flatline onset
  let (st, k) :=
    if ¬ st.is_flatlined then
      let (u, k1) := npRandom g k
      if u < flatline_start_prob then
        let (d, k2) := npRandint g 10 50 k1
        ({ st with is_flatlined := true, flatline_countdown := d }, k2)
      else (st, k1)
    else (st, k)
  -- flatline countdown
  let st :=
    if st.is_flatlined then
      let st := { st with flatline_countdown := st.flatline_countdown - 1 }
      if st.flatline_countdown ≤ 0 then
        { st with is_flatlined := false, flatline_value := none }
      else st
    else st
  -- intermittent onset
  let (st, k) :=
    if ¬ st.is_intermittent then
      let (u, k1) := npRandom g k
      if u < intermittent_prob then
        let (d, k2) := npRandint g 5 20 k1
        ({ st with is_intermittent := true, intermittent_countdown := d }, k2)
      else (st, k1)
    else (st, k)
  -- intermittent countdown
  let st :=
    if st.is_intermittent then
      let st := { st with intermittent_countdown := st.intermittent_countdown - 1 }
      if st.intermittent_countdown ≤ 0 then { st with is_intermittent := false } else st
    else st
  (st, k)

/-- update(): advance the timestep and update every registered sensor in
registration order. -/
noncomputable def SensorImperfectionSimulator.update (g : ℕ → ℝ)
    (sim : SensorImperfectionSimulator) (k : ℕ) : SensorImperfectionSimulator × ℕ :=
  if ¬ sim.enable_imperfections then (sim, k)
  else
    let res := sim.sensors.foldl
      (fun (acc : List (String × SensorImperfectionState) × ℕ) nameSt =>
        let (st1, k1) := updateSensorState g nameSt.2 acc.2
        (acc.1 ++ [(nameSt.1, st1)], k1))
      ([], k)
    ({ sim with timestep := sim.timestep + 1, sensors := res.1 }, res.2)

/-- register_sensor(name). -/
def SensorImperfectionSimulator.register (sim : SensorImperfectionSimulator) (name : String) :
    SensorImperfectionSimulator :=
  if (sim.sensors.map Prod.fst).contains name then sim
  else { sim with sensors := sim.sensors ++ [(name, {})] }

/-- Store an updated fault state for a named sensor. -/
def SensorImperfectionSimulator.setSensor (sim : SensorImperfectionSimulator) (name : String)
    (st : SensorImperfectionState) : SensorImperfectionSimulator :=
  { sim with sensors := sim.sensors.map (fun p => if p.1 = name then (p.1, st) else p) }

/-- apply_imperfections(sensor_name, value). -/
noncomputable def SensorImperfectionSimulator.applyImperfections (g : ℕ → ℝ)
    (sim : SensorImperfectionSimulator) (name : String) (value : Option ℝ) (k : ℕ) :
    Option ℝ × SensorImperfectionSimulator × ℕ :=
  if ¬ sim.enable_imperfections ∨ value = none then (value, sim, k)
  else
    match value with
    | none => (value, sim, k)
    | some v =>
      let sim := sim.register name
      let st := ((sim.sensors.lookup name).getD {})
      -- short-circuit: the 30 percent drop draw happens only while intermittent
      let dk :=
        if st.is_intermittent then
          let (u, k1) := npRandom g k
          (decide (u < 0.3), k1)
        else (false, k)
      if dk.1 then (none, sim, dk.2)
      else
        if st.is_flatlined then
          match st.flatline_value with
          | none => (some v, sim.setSensor name { st with flatline_value := some v }, dk.2)
          | some fv => (some fv, sim, dk.2)
        else (some (v + st.accumulated_bias), sim, dk.2)

/-! ## Motor (src/simulator/motor.py) -/

structure Motor where
  state : MotorHiddenState
  config : Config
  motor_id : ℕ
  temperature : ℝ
  sensor_bias_temperature : ℝ
  sensor_bias_vibration : ℝ
  health_history : List ℝ
  sensor_imperfections : SensorImperfectionSimulator

/-- sensor_windows lookup with .get(sensor_type, 1). -/
def sensorWindow : String → ℕ
  | "vibration" => 1
  | "current" => 5
  | "temperature" => 20
  | _ => 1

/-- Append to a deque with maxlen cap (oldest entries dropped from the left). -/
def dequeAppend (cap : ℕ) (l : List ℝ) (x : ℝ) : List ℝ :=
  let l1 := l ++ [x]
  l1.drop (l1.length - cap)

/-- get_effective_health(sensor_type): mean of the last w history entries. -/
noncomputable def Motor.getEffectiveHealth (m : Motor) (sensor_type : String) : ℝ :=
  let w := sensorWindow sensor_type
  let recent := m.health_history.drop (m.health_history.length - w)
  recent.sum / recent.length

/-- The dict returned by Motor.step (sensor readings plus hidden-state echo). -/
structure SensorDict where
  temperature : Option ℝ
  vibration : Option ℝ
  current : Option ℝ
  rpm : Option ℝ
  motor_health : ℝ
  health_state : String
  hours_since_maintenance : ℝ
  degradation_stage : ℕ

/-- Motor.step: one 5-minute tick of one motor, returning the sensor dict,
the mutated motor and the advanced draw index. -/
noncomputable def Motor.step (g : ℕ → ℝ) (m : Motor) (k : ℕ) : SensorDict × Motor × ℕ :=
  let cfg := m.config
  let hours := m.state.hours_since_maintenance + cfg.timeStepMinutes / 60
  let stage := determine_degradation_stage hours m.state.stage_0_duration_hours
    m.state.stage_1_duration_hours m.state.stage_2_duration_hours
  let hk := update_motor_health g m.state.motor_health hours stage
    m.state.stage_0_duration_hours m.state.stage_1_duration_hours m.state.stage_2_duration_hours
    m.state.stage_1_power_exponent m.state.stage_2_exp_coefficient cfg k
  let health := hk.1
  let hstate := determine_health_state health cfg.healthyThreshold cfg.warningThreshold
  let hist := dequeAppend 30 m.health_history health
  let friction := update_friction cfg.base_friction health cfg.k_friction
  let temp_internal := update_temperature m.temperature cfg.ambient_temp friction
    m.state.load_factor cfg.alpha cfg.beta
  let m1 : Motor :=
    { m with
      state := { m.state with
        hours_since_maintenance := hours
        degradation_stage := stage
        motor_health := health
        health_state := hstate
        friction_coeff := friction }
      temperature := temp_internal
      health_history := hist }
  let vibration_health := m1.getEffectiveHealth "vibration"
  let vk := compute_vibration g vibration_health m1.state.misalignment cfg.v_base
    cfg.k_v_health cfg.k_v_align cfg.vibrationSampleDuration cfg.vibrationSampleRate hk.2
  let current_health := m1.getEffectiveHealth "current"
  let current0 := compute_current cfg.base_current m1.state.load_factor current_health cfg.k_current
  let rpm0 := compute_rpm cfg.nominal_rpm m1.state.misalignment
  let bias_t := m.sensor_bias_temperature + cfg.temp_drift
  let bias_v := m.sensor_bias_vibration + cfg.vibration_drift
  let tk := add_gaussian_noise g (temp_internal + bias_t) cfg.noise_temperature vk.2
  let vk2 := add_gaussian_noise g (vk.1 + bias_v) cfg.noise_vibration tk.2
  let ck := add_gaussian_noise g current0 cfg.noise_current vk2.2
  let rk := add_gaussian_noise g rpm0 cfg.noise_rpm ck.2
  let vk3 := add_spike g vk2.1 cfg.spike_prob cfg.vibration_spike rk.2
  let td := maybe_drop g tk.1 cfg.drop_prob vk3.2
  let vd := maybe_drop g vk3.1 cfg.drop_prob td.2
  let cd := maybe_drop g ck.1 cfg.drop_prob vd.2
  let rd := maybe_drop g rk.1 cfg.drop_prob cd.2
  let su := m1.sensor_imperfections.update g rd.2
  let ta := su.1.applyImperfections g "temperature" td.1 su.2
  let va := ta.2.1.applyImperfections g "vibration" vd.1 ta.2.2
  let ca := va.2.1.applyImperfections g "current" cd.1 va.2.2
  let ra := ca.2.1.applyImperfections g "rpm" rd.1 ca.2.2
  let m2 : Motor :=
    { m1 with
      sensor_bias_temperature := bias_t
      sensor_bias_vibration := bias_v
      sensor_imperfections := ra.2.1 }
  ({ temperature := ta.1
     vibration := va.1
     current := ca.1
     rpm := ra.1
     motor_health := health
     health_state := hstate.value
     hours_since_maintenance := hours
     degradation_stage := stage.value }, m2, ra.2.2)

/-! ## Maintenance scheduler (src/simulator/maintenance.py)

The module consistently refers to a field named bearing_health on the motor
hidden state, while state.py declares motor_health; the mismatched attribute
reads are modelled through MotorHiddenState.pyGetFloat. -/

inductive PyError where
  | typeError (msg : String)
  | attributeError (name : String)
deriving DecidableEq, Repr

structure MaintenanceEvent where
  timestep : ℕ
  motor_id : ℕ
  pre_health : ℝ
  post_health : ℝ
  maintenance_type : String

structure MaintenanceScheduler where
  enable_maintenance : Bool
  events : List MaintenanceEvent := []

/-- Class constants of MaintenanceScheduler. -/
def critical_health_threshold : ℝ := 0.25

def reactive_prob_per_step : ℝ := 0.15

def scheduled_interval : ℕ := 500

/-- Declared parameters of MaintenanceScheduler.should_perform_maintenance
(self excluded), in order, from maintenance.py. -/
def should_perform_maintenance_params : List String :=
  ["timestep", "motor_id", "bearing_health"]

/-- Keyword names used at the call site inside FactorySimulator.step
(factory.py line 243). -/
def factory_step_maintenance_kwargs : List String :=
  ["timestep", "motor_id", "motor_health"]

/-- Python keyword binding succeeds iff every keyword names a declared
parameter and every (default-less) parameter receives an argument. -/
def kwargsBindable (params kwargs : List String) : Bool :=
  kwargs.all (fun x => params.contains x) && params.all (fun p => kwargs.contains p)

/-- The keyword-mismatch TypeError message raised by the call in
FactorySimulator.step. -/
def spmTypeErrorMsg : String :=
  "should_perform_maintenance() got an unexpected keyword argument: motor_health"

/-- should_perform_maintenance body (reactive then scheduled trigger).  This
is the body that would run if the call bound; the factory's call never binds. -/
noncomputable def MaintenanceScheduler.shouldPerformMaintenance (g : ℕ → ℝ)
    (sched : MaintenanceScheduler) (timestep : ℕ) (bearing_health : ℝ) (k : ℕ) :
    Option String × ℕ :=
  if ¬ sched.enable_maintenance then (none, k)
  else
    let reactive :=
      if bearing_health < critical_health_threshold then
        let (u, k1) := npRandom g k
        (if u < reactive_prob_per_step then some "bearing_replacement" else none, k1)
      else (none, k)
    match reactive with
    | (some t, k1) => (some t, k1)
    | (none, k1) =>
      if timestep % scheduled_interval < 10 then
        let (u, k2) := npRandom g k1
        (if u < 0.1 then some "lubrication" else none, k2)
      else (none, k1)

/-- perform_maintenance: the first statement reads motor.state.bearing_health,
an attribute the dataclass does not declare, so every call raises
AttributeError before mutating anything.  The branch bodies are translated
behind that read for fidelity. -/
noncomputable def MaintenanceScheduler.performMaintenance (g : ℕ → ℝ)
    (sched : MaintenanceScheduler) (m : Motor) (maintenance_type : String) (timestep : ℕ)
    (k : ℕ) : Except PyError (MaintenanceScheduler × Motor × MaintenanceEvent × ℕ) :=
  match m.state.pyGetFloat "bearing_health" with
  | none => .error (.attributeError "bearing_health")
  | some pre_health =>
    -- dead code in this program: the read above never succeeds
    let mk1 : Motor × ℕ :=
      if maintenance_type = "bearing_replacement" then
        let (h, k1) := npUniform g 0.75 0.90 k
        ({ m with state := { m.state with
            motor_health := h
            misalignment := m.state.misalignment * 0.3
            friction_coeff := m.config.base_friction * 1.1 } }, k1)
      else if maintenance_type = "lubrication" then
        ({ m with state := { m.state with
            motor_health := min 1.0 (m.state.motor_health + 0.1)
            friction_coeff := m.state.friction_coeff * 0.8 } }, k)
      else if maintenance_type = "alignment" then
        ({ m with state := { m.state with
            misalignment := m.state.misalignment * 0.5
            motor_health := min 1.0 (m.state.motor_health + 0.05) } }, k)
      else (m, k)
    let post_health := mk1.1.state.motor_health
    let event : MaintenanceEvent :=
      { timestep := timestep, motor_id := m.motor_id, pre_health := pre_health
        post_health := post_health, maintenance_type := maintenance_type }
    .ok ({ sched with events := sched.events ++ [event] }, mk1.1, event, mk1.2)

/-! ## Emitted records

Factory-step records carry no cycle_id (the key is added downstream); the
batch generator fills it.  time is real-valued because the batch generator
emits half-step times for maintenance records. -/

structure Record where
  temperature : Option ℝ
  vibration : Option ℝ
  current : Option ℝ
  rpm : Option ℝ
  motor_health : ℝ
  health_state : String
  hours_since_maintenance : ℝ
  degradation_stage : ℕ
  time : ℝ
  motor_id : ℕ
  cycle_id : Option ℕ
  regime : String
  maintenance_event : Option String

/-- Build a record from a sensor dict plus the loop-added keys. -/
def mkRecord (sens : SensorDict) (motor_id : ℕ) (cycle_id : Option ℕ) (time : ℝ)
    (regime : String) (maintenance_event : Option String) : Record :=
  { temperature := sens.temperature
    vibration := sens.vibration
    current := sens.current
    rpm := sens.rpm
    motor_health := sens.motor_health
    health_state := sens.health_state
    hours_since_maintenance := sens.hours_since_maintenance
    degradation_stage := sens.degradation_stage
    time := time
    motor_id := motor_id
    cycle_id := cycle_id
    regime := regime
    maintenance_event := maintenance_event }

/-! ## Factory (src/simulator/factory.py) -/

/-- Regime parameter bundle returned by OperatingRegime.get_regime_params. -/
structure RegimeParams where
  load_multiplier : ℝ
  noise_multiplier : ℝ
  temp_multiplier : ℝ
  degradation_multiplier : ℝ

/-- get_regime_params(regime); unknown keys fall back to the normal bundle. -/
def get_regime_params (regime : String) : RegimeParams :=
  if regime = "idle" then ⟨0.3, 0.5, 0.2, 0.5⟩
  else if regime = "peak" then ⟨1.5, 1.4, 1.8, 1.6⟩
  else ⟨1.0, 1.0, 1.0, 1.0⟩

structure FactoryState where
  time : ℕ
  motors : List Motor
  base_config : Config
  enable_regimes : Bool
  current_regime : String
  regime_timer : ℕ
  regime_duration : ℕ
  maintenance_scheduler : MaintenanceScheduler
  scheduled_automatic_maintenance : ℕ → Option ℕ
  previous_health_states : ℕ → Option HealthState

/-- _select_next_regime: one draw against the fixed transition row of the
current regime (row order follows the dict insertion order idle, normal, peak). -/
noncomputable def selectNextRegime (g : ℕ → ℝ) (current : String) (k : ℕ) : String × ℕ :=
  let (u, k1) := npRandom g k
  if current = "idle" then
    (if u < 0.7 then "idle" else "normal", k1)
  else if current = "peak" then
    (if u < 0.0 then "idle" else if u < 0.8 then "normal" else "peak", k1)
  else
    (if u < 0.1 then "idle" else if u < 0.8 then "normal" else "peak", k1)

/-- The regime-advance prologue of FactorySimulator.step. -/
noncomputable def regimeAdvance (g : ℕ → ℝ) (fs : FactoryState) (k : ℕ) : FactoryState × ℕ :=
  if fs.enable_regimes then
    let timer := fs.regime_timer + 1
    if fs.regime_duration ≤ timer then
      let (next, k1) := selectNextRegime g fs.current_regime k
      let (u, k2) := npUniform g 0.8 1.2 k1
      ({ fs with
          current_regime := next
          regime_timer := 0
          regime_duration := (⌊(100 : ℝ) * u⌋).toNat }, k2)
    else ({ fs with regime_timer := timer }, k)
  else (fs, k)

/-- _apply_regime_effects: scale the motor's load factor for this step only,
returning the original load for restoration. -/
def applyRegimeEffects (m : Motor) (p : RegimeParams) : Motor × ℝ :=
  ({ m with state := { m.state with load_factor := m.state.load_factor * p.load_multiplier } },
   m.state.load_factor)

/-- _perform_automatic_maintenance: full cycle reset with fresh lifespan,
stage durations and stage-1 exponent (draw order as in the source). -/
noncomputable def performAutomaticMaintenance (g : ℕ → ℝ) (m : Motor) (k : ℕ) : Motor × ℕ :=
  let base_health := m.config.stage0BaseHealth
  let (h, k) := npUniform g (base_health - 0.02) base_health k
  let (lifespan, k) := npUniform g m.config.minHoursToCritical m.config.maxHoursToCritical k
  let (p0, k) := npUniform g m.config.stage0MinPct m.config.stage0MaxPct k
  let (p1, k) := npUniform g m.config.stage1MinPct m.config.stage1MaxPct k
  let (b, k) := npUniform g m.config.stage1PowerExpMin m.config.stage1PowerExpMax k
  ({ m with state := { m.state with
      motor_health := h
      health_state := .HEALTHY
      degradation_stage := .STAGE_0_HEALTHY
      hours_since_maintenance := 0
      target_hours_to_critical := lifespan
      stage_0_duration_hours := lifespan * p0
      stage_1_duration_hours := lifespan * p1
      stage_2_duration_hours := lifespan * (1 - p0 - p1)
      stage_1_power_exponent := b
      stage_2_exp_coefficient := 0
      misalignment := m.state.misalignment * 0.3
      friction_coeff := m.config.base_friction * 1.1 } }, k)

/-- The critical-entry tracking, scheduling and automatic-maintenance firing
block that FactorySimulator.step runs for each motor (factory.py 212-238).
Returns the updated factory bookkeeping, the possibly maintained motor, the
automatic_maintenance_occurred flag and the advanced draw index. -/
noncomputable def criticalSchedulingPhase (g : ℕ → ℝ) (fs : FactoryState) (m : Motor) (k : ℕ) :
    FactoryState × Motor × Bool × ℕ :=
  let mid := m.motor_id
  let prev := fs.previous_health_states mid
  let cur := m.state.health_state
  let fsk :=
    if prev ≠ some .CRITICAL ∧ cur = .CRITICAL ∧
        fs.scheduled_automatic_maintenance mid = none then
      let (delay, k1) := npRandint g 1 289 k
      ({ fs with scheduled_automatic_maintenance :=
          Function.update fs.scheduled_automatic_maintenance mid (some (fs.time + delay)) }, k1)
    else (fs, k)
  let fs1 := { fsk.1 with
      previous_health_states := Function.update fsk.1.previous_health_states mid (some cur) }
  match fs1.scheduled_automatic_maintenance mid with
  | some t =>
      if t ≤ fs1.time ∧ m.state.motor_health < 0.30 then
        let (m1, k2) := performAutomaticMaintenance g m fsk.2
        ({ fs1 with scheduled_automatic_maintenance :=
            Function.update fs1.scheduled_automatic_maintenance mid none }, m1, true, k2)
      else (fs1, m, false, fsk.2)
  | none => (fs1, m, false, fsk.2)

/-- Result of a factory step: either the TypeError escaping the call (with the
partially mutated factory, as Python leaves it) or the records of the tick. -/
abbrev StepResult := Except (PyError × FactoryState × ℕ) (FactoryState × List Record × ℕ)

/-- The per-motor loop of FactorySimulator.step.  For each motor it runs the
scheduling block, then issues the keyword call
should_perform_maintenance(timestep=..., motor_id=..., motor_health=...)
whose keyword set does not bind to the declared parameters
(timestep, motor_id, bearing_health): the call raises TypeError. -/
noncomputable def stepMotorsAux (g : ℕ → ℝ) (p : RegimeParams) :
    FactoryState → List Motor → List Motor → List Record → ℕ → StepResult
  | fs, done, [], recs, k => .ok ({ fs with motors := done }, recs, k)
  | fs, done, m :: rest, recs, k =>
    let ph := criticalSchedulingPhase g fs m k
    let fs1 := ph.1
    let m1 := ph.2.1
    let autoFlag := ph.2.2.1
    let k1 := ph.2.2.2
    if kwargsBindable should_perform_maintenance_params factory_step_maintenance_kwargs then
      -- unreachable for this call site; translated for fidelity
      let mt := fs1.maintenance_scheduler.shouldPerformMaintenance g fs1.time
        m1.state.motor_health k1
      let afterMaint : Except PyError (FactoryState × Motor × ℕ) :=
        match mt.1 with
        | some t =>
          match fs1.maintenance_scheduler.performMaintenance g m1 t fs1.time mt.2 with
          | .error e => .error e
          | .ok (sched1, m2, _, k2) =>
            .ok ({ fs1 with maintenance_scheduler := sched1 }, m2, k2)
        | none => .ok (fs1, m1, mt.2)
      match afterMaint with
      | .error e => .error (e, { fs1 with motors := done ++ m1 :: rest }, mt.2)
      | .ok (fs2, m2, k2) =>
        let ml :=
          if fs2.enable_regimes then applyRegimeEffects m2 p else (m2, 0)
        let st := ml.1.step g k2
        let m3 :=
          if fs2.enable_regimes then
            { st.2.1 with state := { st.2.1.state with load_factor := ml.2 } }
          else st.2.1
        let rec1 := mkRecord st.1 m.motor_id none (fs2.time : ℝ) fs2.current_regime
          (if autoFlag then some "automatic_maintenance" else mt.1)
        stepMotorsAux g p fs2 (done ++ [m3]) rest (recs ++ [rec1]) st.2.2
    else
      .error (.typeError "should_perform_maintenance() got an unexpected keyword argument: motor_health",
        { fs1 with motors := done ++ m1 :: rest }, k1)

/-- The motor loop with the regime parameter bundle fixed (the tail of
FactorySimulator.step after the regime prologue). -/
noncomputable def stepCore (g : ℕ → ℝ) (p : RegimeParams) (fs : FactoryState) (k : ℕ) :
    StepResult :=
  match stepMotorsAux g p fs [] fs.motors [] k with
  | .ok (fs1, recs, k1) => .ok ({ fs1 with time := fs1.time + 1 }, recs, k1)
  | .error e => .error e

/-- FactorySimulator.step. -/
noncomputable def FactorySimulator.step (g : ℕ → ℝ) (fs : FactoryState) (k : ℕ) : StepResult :=
  let adv := regimeAdvance g fs k
  stepCore g (get_regime_params adv.1.current_regime) adv.1 adv.2

/-- _create_motor(motor_id, base_config). -/
noncomputable def createMotor (g : ℕ → ℝ) (motor_id : ℕ) (base_config : Config) (k : ℕ) :
    Motor × ℕ :=
  let load_factor := 0.9 + 0.1 * (motor_id : ℝ)
  let misalignment := 0.02 * (motor_id : ℝ)
  let (lifespan, k) := npUniform g base_config.minHoursToCritical
    base_config.maxHoursToCritical k
  let (p0, k) := npUniform g base_config.stage0MinPct base_config.stage0MaxPct k
  let (p1, k) := npUniform g base_config.stage1MinPct base_config.stage1MaxPct k
  let (b, k) := npUniform g base_config.stage1PowerExpMin base_config.stage1PowerExpMax k
  let st : MotorHiddenState :=
    { motor_health := base_config.stage0BaseHealth
      health_state := .HEALTHY
      degradation_stage := .STAGE_0_HEALTHY
      load_factor := load_factor
      misalignment := misalignment
      friction_coeff := base_config.base_friction
      hours_since_maintenance := 0
      target_hours_to_critical := lifespan
      stage_0_duration_hours := lifespan * p0
      stage_1_duration_hours := lifespan * p1
      stage_2_duration_hours := lifespan * (1 - p0 - p1)
      stage_1_power_exponent := b
      stage_2_exp_coefficient := 0 }
  ({ state := st
     config := base_config
     motor_id := motor_id
     temperature := base_config.ambient_temp
     sensor_bias_temperature := 0
     sensor_bias_vibration := 0
     health_history := [st.motor_health]
     sensor_imperfections := { enable_imperfections := base_config.enableSensorImperfections } },
   k)

/-- FactorySimulator.__init__. -/
noncomputable def factoryInit (g : ℕ → ℝ) (num_motors : ℕ) (base_config : Config)
    (enable_regimes enable_maintenance : Bool) (k : ℕ) : FactoryState × ℕ :=
  let mk1 := (List.range num_motors).foldl
    (fun (acc : List Motor × ℕ) i =>
      let (m, k1) := createMotor g i base_config acc.2
      (acc.1 ++ [m], k1))
    ([], k)
  ({ time := 0
     motors := mk1.1
     base_config := base_config
     enable_regimes := enable_regimes
     current_regime := "normal"
     regime_timer := 0
     regime_duration := 100
     maintenance_scheduler := { enable_maintenance := enable_maintenance }
     scheduled_automatic_maintenance := fun _ => none
     previous_health_states := fun _ => none }, mk1.2)

/-! ## Batch generation (src/ui/strategies/instantaneous_strategy.py)

generate_until_all_critical drives motors directly through Motor.step (it does
not call FactorySimulator.step), counts one cycle per critical entry, applies
the factory's automatic maintenance, and stops on target completion, the
max_steps ceiling, or the psutil memory guard.  The guard reads the process
resident set size, modelled as an environment trace mem : tick -> MB. -/

/-- _check_memory_limits(current_records, _): RSS below 12 GB and fewer than
2M records. -/
noncomputable def checkMemoryLimits (memUsageMB : ℝ) (current_records : ℕ) : Bool :=
  decide (memUsageMB < 12000) && decide (current_records < 2000000)

/-- _reset_health_only(motor): fresh-cycle reset used by the batch loop. -/
noncomputable def resetHealthOnly (g : ℕ → ℝ) (m : Motor) (k : ℕ) : Motor × ℕ :=
  let (recovery, k1) := npUniform g 0.85 0.98 k
  ({ m with
      state := { m.state with
        motor_health := recovery
        hours_since_maintenance := 0
        health_state := .HEALTHY
        degradation_stage := .STAGE_0_HEALTHY }
      health_history := [recovery] }, k1)

/-- Loop state of generate_until_all_critical. -/
structure GenState where
  motors : List Motor
  regime : String
  cycles : ℕ → ℕ
  completed : ℕ → Bool
  history : List Record
  batch : List Record
  current_time : ℕ
  global_timestep : ℕ
  k : ℕ

/-- One motor's turn inside the timestep loop: step, detect critical entry,
emit the cycle-closing pair of records and maintain, or emit the normal
record. -/
noncomputable def genMotorBody (g : ℕ → ℝ) (target : ℕ) (regime : String) (time : ℕ)
    (m : Motor) (cycles : ℕ → ℕ) (completed : ℕ → Bool) (k : ℕ) :
    Motor × (ℕ → ℕ) × (ℕ → Bool) × List Record × ℕ :=
  let mid := m.motor_id
  if completed mid then (m, cycles, completed, [], k)
  else
    let st := m.step g k
    let sens := st.1
    let m1 := st.2.1
    let k1 := st.2.2
    if m1.state.health_state = .CRITICAL then
      let cycles1 := Function.update cycles mid (cycles mid + 1)
      let current_cycle := cycles1 mid - 1
      let rec1 := mkRecord sens mid (some current_cycle) (time : ℝ) regime none
      let pm := performAutomaticMaintenance g m1 k1
      let st2 := pm.1.step g pm.2
      let rec2 := mkRecord st2.1 mid (some current_cycle) ((time : ℝ) + 0.5) regime
        (some "automatic_maintenance")
      if target ≤ cycles1 mid then
        (st2.2.1, cycles1, Function.update completed mid true, [rec1, rec2], st2.2.2)
      else
        let rh := resetHealthOnly g st2.2.1 st2.2.2
        (rh.1, cycles1, completed, [rec1, rec2], rh.2)
    else
      (m1, cycles, completed, [mkRecord sens mid (some (cycles mid)) (time : ℝ) regime none], k1)

/-- The inner for-loop over motors of one global timestep. -/
noncomputable def genMotors (g : ℕ → ℝ) (target : ℕ) (regime : String) (time : ℕ) :
    List Motor → (ℕ → ℕ) → (ℕ → Bool) → ℕ →
    List Motor × (ℕ → ℕ) × (ℕ → Bool) × List Record × ℕ
  | [], cycles, completed, k => ([], cycles, completed, [], k)
  | m :: rest, cycles, completed, k =>
    let b := genMotorBody g target regime time m cycles completed k
    let r := genMotors g target regime time rest b.2.1 b.2.2.1 b.2.2.2.2
    (b.1 :: r.1, r.2.1, r.2.2.1, b.2.2.2.1 ++ r.2.2.2.1, r.2.2.2.2)

/-- One iteration of the while loop: step all motors, batch the records,
flush the batch into history at 25000 records, advance the clocks. -/
noncomputable def genIter (g : ℕ → ℝ) (target : ℕ) (s : GenState) : GenState :=
  let r := genMotors g target s.regime s.current_time s.motors s.cycles s.completed s.k
  let batch1 := s.batch ++ r.2.2.2.1
  let hb : List Record × List Record :=
    if 25000 ≤ batch1.length then (s.history ++ batch1, []) else (s.history, batch1)
  { motors := r.1
    regime := s.regime
    cycles := r.2.1
    completed := r.2.2.1
    history := hb.1
    batch := hb.2
    current_time := s.current_time + 1
    global_timestep := s.global_timestep + 1
    k := r.2.2.2.2 }

/-- The while loop, fuelled by the max_steps ceiling: stop when every motor
completed its cycles, when the fuel (timestep < max_steps) runs out, or when
the five-thousandly memory check fails. -/
noncomputable def genLoop (g : ℕ → ℝ) (target : ℕ) (mem : ℕ → ℝ) :
    ℕ → GenState → GenState
  | 0, s => s
  | fuel + 1, s =>
    if s.motors.all (fun m => s.completed m.motor_id) then s
    else if s.global_timestep % 5000 = 0 ∧ 0 < s.global_timestep ∧
        ¬ checkMemoryLimits (mem s.global_timestep) s.history.length then s
    else genLoop g target mem fuel (genIter g target s)

/-- Reset every motor for the synchronized global timeline start. -/
noncomputable def resetAllMotors (g : ℕ → ℝ) : List Motor → ℕ → List Motor × ℕ
  | [], k => ([], k)
  | m :: rest, k =>
    let r1 := resetHealthOnly g m k
    let r2 := resetAllMotors g rest r1.2
    (r1.1 :: r2.1, r2.2)

/-- generate_until_all_critical(max_steps): clear history, reset the clock and
the motors, run the fuelled loop, then flush the remaining batch.  The
returned DataFrame is the final history field. -/
noncomputable def generateUntilAllCritical (g : ℕ → ℝ) (target : ℕ) (mem : ℕ → ℝ)
    (maxSteps : ℕ) (motors : List Motor) (regime : String) (k : ℕ) : GenState :=
  let rm := resetAllMotors g motors k
  let s0 : GenState :=
    { motors := rm.1
      regime := regime
      cycles := fun _ => 0
      completed := fun _ => false
      history := []
      batch := []
      current_time := 0
      global_timestep := 0
      k := rm.2 }
  let s1 := genLoop g target mem maxSteps s0
  { s1 with history := s1.history ++ s1.batch, batch := [] }

/-- Number of records a motor emitted with maintenance_event ==
"automatic_maintenance". -/
def countAuto (motor_id : ℕ) (recs : List Record) : ℕ :=
  (recs.filter (fun r => r.motor_id = motor_id ∧
    r.maintenance_event = some "automatic_maintenance")).length

/-- The bookkeeping invariant of the batch loop: the records accumulated so
far carry exactly cycles(i) automatic_maintenance events for motor id i,
no motor is past its target, and the completion flag mirrors reaching it. -/
def GenInv (target : ℕ) (s : GenState) : Prop :=
  ∀ i : ℕ, countAuto i (s.history ++ s.batch) = s.cycles i ∧ s.cycles i ≤ target ∧
    s.completed i = decide (target ≤ s.cycles i)

/-! ## Simulator manager, live mode (src/ui/simulator_manager.py) -/

structure SimulatorConfig where
  num_motors : ℕ := 5
  degradation_speed : ℝ := 1.0
  noise_level : ℝ := 1.0
  load_factor : ℝ := 1.0
  max_history : ℕ := 2000
  auto_maintenance_enabled : Bool := true
  maintenance_cycle_period : ℕ := 3600
  generation_mode : String := "live"
  target_maintenance_cycles : ℕ := 1

structure PausedInfo where
  health : ℝ
  timestamp : ℕ

structure FailedInfo where
  failure_time : ℕ
  health_at_failure : ℝ

structure ManagerState where
  factory : FactoryState
  history : List Record
  current_time : ℕ
  config : SimulatorConfig
  alert_threshold : ℝ
  last_maintenance_time : ℕ → ℕ
  paused_motors : List (ℕ × PausedInfo)
  failed_motors : List (ℕ × FailedInfo)
  pending_decisions : List ℕ

/-- reset_motor's in-place update of the first motor with the given id
(the Python for/break loop). -/
def resetMotorList : List Motor → ℕ → List Motor × Bool
  | [], _ => ([], false)
  | m :: rest, mid =>
    if m.motor_id = mid then
      ({ m with state := { m.state with
          motor_health := 1.0
          misalignment := 0.05
          friction_coeff := REALISTIC_CONFIG.base_friction } } :: rest, true)
    else
      let r := resetMotorList rest mid
      (m :: r.1, r.2)

/-- SimulatorManager.reset_motor(motor_id): full health, partial misalignment
reset, base friction; hours_since_maintenance is left untouched. -/
def SimulatorManager.resetMotor (ms : ManagerState) (motor_id : ℕ) : ManagerState :=
  let r := resetMotorList ms.factory.motors motor_id
  { ms with
    factory := { ms.factory with motors := r.1 }
    last_maintenance_time :=
      if r.2 then Function.update ms.last_maintenance_time motor_id ms.current_time
      else ms.last_maintenance_time }

/-- SimulatorManager.handle_motor_maintenance(motor_id). -/
def SimulatorManager.handleMotorMaintenance (ms : ManagerState) (motor_id : ℕ) : ManagerState :=
  if (ms.paused_motors.map Prod.fst).contains motor_id then
    let ms1 := SimulatorManager.resetMotor ms motor_id
    { ms1 with
      paused_motors := ms1.paused_motors.filter (fun p => ¬ p.1 = motor_id)
      pending_decisions := ms1.pending_decisions.filter (fun i => ¬ i = motor_id) }
  else ms

/-- _pause_motor_for_decision(motor_id, health). -/
def SimulatorManager.pauseMotorForDecision (ms : ManagerState) (motor_id : ℕ) (health : ℝ) :
    ManagerState :=
  if (ms.paused_motors.map Prod.fst).contains motor_id then ms
  else
    { ms with
      paused_motors := ms.paused_motors ++ [(motor_id, ⟨health, ms.current_time⟩)]
      pending_decisions := ms.pending_decisions ++ [motor_id] }

/-- The record filtering and alert bookkeeping SimulatorManager.step applies to
one factory step's records. -/
noncomputable def managerFilterRecords (ms : ManagerState) (recs : List Record) : ManagerState × List Record :=
  recs.foldl
    (fun (acc : ManagerState × List Record) r =>
      let ms0 := acc.1
      if (ms0.failed_motors.map Prod.fst).contains r.motor_id then acc
      else if (ms0.paused_motors.map Prod.fst).contains r.motor_id then acc
      else
        let r1 := { r with time := (ms0.current_time : ℝ) }
        let ms1 :=
          if ms0.config.generation_mode = "live" ∧ r.motor_health ≤ ms0.alert_threshold ∧
              ¬ ms0.pending_decisions.contains r.motor_id then
            SimulatorManager.pauseMotorForDecision ms0 r.motor_id r.motor_health
          else ms0
        (ms1, acc.2 ++ [r1]))
    (ms, [])

/-- _check_and_perform_auto_maintenance: time-period based resets (reachable
only in instantaneous mode from SimulatorManager.step). -/
def checkAndPerformAutoMaintenance (ms : ManagerState) : ManagerState :=
  (ms.factory.motors.map Motor.motor_id).foldl
    (fun acc mid =>
      if acc.config.maintenance_cycle_period ≤ acc.current_time - acc.last_maintenance_time mid
      then SimulatorManager.resetMotor acc mid
      else acc)
    ms

/-- The num_steps loop of SimulatorManager.step; a TypeError raised inside
FactorySimulator.step propagates to the caller. -/
noncomputable def managerStepAux (g : ℕ → ℝ) :
    ManagerState → ℕ → ℕ → Except (PyError × ManagerState × ℕ) (ManagerState × List Record × ℕ)
  | ms, 0, k => .ok (ms, [], k)
  | ms, n + 1, k =>
    match FactorySimulator.step g ms.factory k with
    | .error (e, fsE, kE) => .error (e, { ms with factory := fsE }, kE)
    | .ok (fs1, recs, k1) =>
      let fr := managerFilterRecords { ms with factory := fs1 } recs
      let ms1 := { fr.1 with current_time := fr.1.current_time + 1 }
      let ms2 :=
        if ms1.config.auto_maintenance_enabled ∧ ms1.config.generation_mode = "instantaneous"
        then checkAndPerformAutoMaintenance ms1
        else ms1
      match managerStepAux g ms2 n k1 with
      | .error e => .error e
      | .ok (ms3, recs2, k2) => .ok (ms3, fr.2 ++ recs2, k2)

/-- SimulatorManager.step(num_steps): run the loop, extend and trim the
history, and return the fresh records. -/
noncomputable def SimulatorManager.step (g : ℕ → ℝ) (ms : ManagerState) (num_steps k : ℕ) :
    Except (PyError × ManagerState × ℕ) (ManagerState × List Record × ℕ) :=
  match managerStepAux g ms num_steps k with
  | .error e => .error e
  | .ok (ms1, newRecs, k1) =>
    let hist1 := ms1.history ++ newRecs
    let cap := ms1.config.max_history * ms1.config.num_motors
    let trimmed := if cap < hist1.length then hist1.drop (hist1.length - cap) else hist1
    .ok ({ ms1 with history := trimmed }, newRecs, k1)

/-! ## Derived trace views used by the statements -/

/-- Post-tick hidden-health trace of a motor over n consecutive ticks. -/
noncomputable def Motor.healthTrace (g : ℕ → ℝ) : Motor → ℕ → ℕ → List ℝ
  | _, _, 0 => []
  | m, k, n + 1 =>
    let st := m.step g k
    st.2.1.state.motor_health :: Motor.healthTrace g st.2.1 st.2.2 n

/-- The degradation stage the i-th upcoming tick of a motor will compute
(hours advance by one time step per tick, durations are not touched by
Motor.step). -/
noncomputable def Motor.stageAtTick (m : Motor) (i : ℕ) : DegradationStage :=
  determine_degradation_stage
    (m.state.hours_since_maintenance + (i : ℝ) * (m.config.timeStepMinutes / 60))
    m.state.stage_0_duration_hours m.state.stage_1_duration_hours m.state.stage_2_duration_hours

/-! ## Concrete inputs used by witnesses and counterexamples -/

/-- Oracle representing a seeded stream that keeps drawing 0. -/
def zeroG : ℕ → ℝ := fun _ => 0

/-- Oracle whose standard-normal draws are all -50 (an extreme but possible
tail draw for a Gaussian). -/
def negG : ℕ → ℝ := fun _ => -50

/-- The config the instantaneous strategy hands the factory: REALISTIC_CONFIG
plus noise_scale and the two UI thresholds. -/
def batchConfig : Config :=
  { REALISTIC_CONFIG with
      noise_scale := some 1.0
      warning_threshold := some 0.4
      critical_threshold := some 0.2 }

/-- A one-motor factory as FactorySimulator(num_motors=1) builds it. -/
noncomputable def factory1 : FactoryState := (factoryInit zeroG 1 DEFAULT_CONFIG true true 0).1

/-- Motor 0 of the batch scenario, as _create_motor(0, batchConfig) builds it
under the all-zero oracle. -/
noncomputable def motor0 : Motor := (createMotor zeroG 0 batchConfig 0).1

/-- A motor sitting one tick before hour 10 of a 10h/10h/5h stage split in
Stage 1 territory, used to exercise the stage-1 update. -/
noncomputable def motorC6 : Motor :=
  { state :=
      { motor_health := 0.5
        health_state := .WARNING
        degradation_stage := .STAGE_1_EARLY
        load_factor := 1
        misalignment := 0
        friction_coeff := 0.05
        hours_since_maintenance := 119 / 12
        target_hours_to_critical := 25
        stage_0_duration_hours := 10
        stage_1_duration_hours := 10
        stage_2_duration_hours := 5
        stage_1_power_exponent := 2
        stage_2_exp_coefficient := 0 }
    config := DEFAULT_CONFIG
    motor_id := 0
    temperature := 25
    sensor_bias_temperature := 0
    sensor_bias_vibration := 0
    health_history := [0.5]
    sensor_imperfections := { enable_imperfections := true } }

/-- A live-mode manager whose motor 0 is paused for a decision at health 0.25,
deep in stage-2 hours. -/
noncomputable def managerC9 : ManagerState :=
  { factory := factory1
    history := []
    current_time := 40
    config := { generation_mode := "live" }
    alert_threshold := 0.3
    last_maintenance_time := fun _ => 0
    paused_motors := [(0, ⟨0.25, 40⟩)]
    failed_motors := []
    pending_decisions := [0] }

/-- A motor sitting in Critical at health 0.2, for the scheduling scenarios. -/
noncomputable def motorC5 : Motor :=
  { motorC6 with state := { motorC6.state with health_state := .CRITICAL, motor_health := 0.2 } }

/-- A factory at tick 10 with an automatic maintenance scheduled for motor 0
at tick 5. -/
noncomputable def fsC5 : FactoryState :=
  { factory1 with
      time := 10
      scheduled_automatic_maintenance := Function.update (fun _ => none) 0 (some 5) }

/-- Environment trace: resident set size stays low. -/
def memLow : ℕ → ℝ := fun _ => 0

/-- Environment trace: resident set size reads 13 GB, tripping the guard. -/
def memHigh : ℕ → ℝ := fun _ => 13000

/-- Invariant of the single-motor batch run that stays inside Stage 0: after
n loop iterations the lone motor still has its initial 700h/120h/180h stage
split, has accumulated n five-minute ticks of hours, reads Healthy, is not
completed, and the run has buffered exactly n records with nothing flushed
to history. -/
def stage0RunInv (n : ℕ) (s : GenState) : Prop :=
  (∃ m : Motor, s.motors = [m] ∧ m.config = batchConfig ∧
    m.state.stage_0_duration_hours = 700 ∧
    m.state.stage_1_duration_hours = 120 ∧
    m.state.stage_2_duration_hours = 180 ∧
    m.state.hours_since_maintenance = (n : ℝ) * (5 / 60) ∧
    m.state.health_state = .HEALTHY ∧
    s.completed m.motor_id = false) ∧
  s.history = [] ∧ s.batch.length = n ∧ s.global_timestep = n

/-! ## Helper lemmas -/

lemma determine_health_state_spec (h up lo : ℝ) (hlt : lo < up) :
    (((determine_health_state h up lo).value = "Healthy") ↔ up ≤ h) ∧
    (((determine_health_state h up lo).value = "Warning") ↔ lo ≤ h ∧ h < up) ∧
    (((determine_health_state h up lo).value = "Critical") ↔ h < lo) := by
  unfold determine_health_state
  split_ifs with h1 h2 <;>
    simp only [HealthState.value] <;>
    refine ⟨?_, ?_, ?_⟩ <;>
    simp_all <;> linarith

lemma Motor.step_fst_motor_health (g : ℕ → ℝ) (m : Motor) (k : ℕ) :
    ((m.step g k).1).motor_health =
      (update_motor_health g m.state.motor_health
        (m.state.hours_since_maintenance + m.config.timeStepMinutes / 60)
        (determine_degradation_stage
          (m.state.hours_since_maintenance + m.config.timeStepMinutes / 60)
          m.state.stage_0_duration_hours m.state.stage_1_duration_hours
          m.state.stage_2_duration_hours)
        m.state.stage_0_duration_hours m.state.stage_1_duration_hours
        m.state.stage_2_duration_hours m.state.stage_1_power_exponent
        m.state.stage_2_exp_coefficient m.config k).1 := rfl

lemma Motor.step_fst_health_state (g : ℕ → ℝ) (m : Motor) (k : ℕ) :
    ((m.step g k).1).health_state =
      (determine_health_state ((m.step g k).1).motor_health
        m.config.healthyThreshold m.config.warningThreshold).value := rfl

lemma Motor.step_snd_motor_health (g : ℕ → ℝ) (m : Motor) (k : ℕ) :
    ((m.step g k).2.1).state.motor_health = ((m.step g k).1).motor_health := rfl

lemma Motor.step_snd_health_state (g : ℕ → ℝ) (m : Motor) (k : ℕ) :
    ((m.step g k).2.1).state.health_state =
      determine_health_state ((m.step g k).1).motor_health
        m.config.healthyThreshold m.config.warningThreshold := rfl

lemma Motor.step_hours (g : ℕ → ℝ) (m : Motor) (k : ℕ) :
    ((m.step g k).2.1).state.hours_since_maintenance =
      m.state.hours_since_maintenance + m.config.timeStepMinutes / 60 := rfl

lemma Motor.step_config (g : ℕ → ℝ) (m : Motor) (k : ℕ) :
    ((m.step g k).2.1).config = m.config := rfl

lemma Motor.step_motor_id (g : ℕ → ℝ) (m : Motor) (k : ℕ) :
    ((m.step g k).2.1).motor_id = m.motor_id := rfl

lemma Motor.step_durations (g : ℕ → ℝ) (m : Motor) (k : ℕ) :
    ((m.step g k).2.1).state.stage_0_duration_hours = m.state.stage_0_duration_hours ∧
    ((m.step g k).2.1).state.stage_1_duration_hours = m.state.stage_1_duration_hours ∧
    ((m.step g k).2.1).state.stage_2_duration_hours = m.state.stage_2_duration_hours :=
  ⟨rfl, rfl, rfl⟩

lemma update_stage1_le (g : ℕ → ℝ) (cur hours s0 s1 s2 b c2 : ℝ) (cfg : Config) (k : ℕ) :
    (update_motor_health g cur hours .STAGE_1_EARLY s0 s1 s2 b c2 cfg k).1 ≤ cur := by
  simp only [update_motor_health]
  exact min_le_right _ _

lemma update_stage2_nonneg (g : ℕ → ℝ) (cur hours s0 s1 s2 b c2 : ℝ) (cfg : Config) (k : ℕ) :
    0 ≤ (update_motor_health g cur hours .STAGE_2_RAPID s0 s1 s2 b c2 cfg k).1 := by
  simp only [update_motor_health]
  exact le_max_left _ _

lemma update_stage2_le_max (g : ℕ → ℝ) (cur hours s0 s1 s2 b c2 : ℝ) (cfg : Config) (k : ℕ) :
    (update_motor_health g cur hours .STAGE_2_RAPID s0 s1 s2 b c2 cfg k).1 ≤ max 0 cur := by
  simp only [update_motor_health]
  exact max_le_max (le_refl 0) (min_le_right _ _)

lemma update_stage2_le (g : ℕ → ℝ) (cur hours s0 s1 s2 b c2 : ℝ) (cfg : Config) (k : ℕ)
    (h0 : 0 ≤ cur) :
    (update_motor_health g cur hours .STAGE_2_RAPID s0 s1 s2 b c2 cfg k).1 ≤ cur := by
  have := update_stage2_le_max g cur hours s0 s1 s2 b c2 cfg k
  rwa [max_eq_right h0] at this

lemma Motor.stageAtTick_step (g : ℕ → ℝ) (m : Motor) (k i : ℕ) :
    ((m.step g k).2.1).stageAtTick i = m.stageAtTick (i + 1) := by
  unfold Motor.stageAtTick
  rw [Motor.step_hours, Motor.step_config, (Motor.step_durations g m k).1,
    (Motor.step_durations g m k).2.1, (Motor.step_durations g m k).2.2]
  congr 1
  push_cast
  ring

lemma Motor.step_health_eq_update_at_stage1 (g : ℕ → ℝ) (m : Motor) (k : ℕ)
    (hst : m.stageAtTick 1 = .STAGE_1_EARLY) :
    ((m.step g k).2.1).state.motor_health =
      (update_motor_health g m.state.motor_health
        (m.state.hours_since_maintenance + m.config.timeStepMinutes / 60)
        .STAGE_1_EARLY
        m.state.stage_0_duration_hours m.state.stage_1_duration_hours
        m.state.stage_2_duration_hours m.state.stage_1_power_exponent
        m.state.stage_2_exp_coefficient m.config k).1 := by
  rw [Motor.step_snd_motor_health, Motor.step_fst_motor_health]
  have harg : m.state.hours_since_maintenance + m.config.timeStepMinutes / 60 =
      m.state.hours_since_maintenance + (1 : ℕ) * (m.config.timeStepMinutes / 60) := by
    push_cast; ring
  unfold Motor.stageAtTick at hst
  rw [harg, hst]

lemma Motor.step_health_eq_update_at_stage2 (g : ℕ → ℝ) (m : Motor) (k : ℕ)
    (hst : m.stageAtTick 1 = .STAGE_2_RAPID) :
    ((m.step g k).2.1).state.motor_health =
      (update_motor_health g m.state.motor_health
        (m.state.hours_since_maintenance + m.config.timeStepMinutes / 60)
        .STAGE_2_RAPID
        m.state.stage_0_duration_hours m.state.stage_1_duration_hours
        m.state.stage_2_duration_hours m.state.stage_1_power_exponent
        m.state.stage_2_exp_coefficient m.config k).1 := by
  rw [Motor.step_snd_motor_health, Motor.step_fst_motor_health]
  have harg : m.state.hours_since_maintenance + m.config.timeStepMinutes / 60 =
      m.state.hours_since_maintenance + (1 : ℕ) * (m.config.timeStepMinutes / 60) := by
    push_cast; ring
  unfold Motor.stageAtTick at hst
  rw [harg, hst]

lemma healthTrace_chain_stage1 (g : ℕ → ℝ) :
    ∀ (n : ℕ) (m : Motor) (k : ℕ),
      (∀ i < n, m.stageAtTick (i + 1) = .STAGE_1_EARLY) →
      List.Chain' (fun a b => b ≤ a) (m.healthTrace g k n) ∧
      ∀ x ∈ (m.healthTrace g k n).head?, x ≤ m.state.motor_health := by
  intro n
  induction n with
  | zero => intro m k _; simp [Motor.healthTrace]
  | succ n ih =>
    intro m k hst
    have h1 : ((m.step g k).2.1).state.motor_health ≤ m.state.motor_health := by
      rw [Motor.step_health_eq_update_at_stage1 g m k (hst 0 (Nat.succ_pos n))]
      exact update_stage1_le ..
    have hnext : ∀ i < n, ((m.step g k).2.1).stageAtTick (i + 1) = .STAGE_1_EARLY := by
      intro i hi
      rw [Motor.stageAtTick_step]
      exact hst (i + 1) (by omega)
    obtain ⟨hchain, hhead⟩ := ih (m.step g k).2.1 (m.step g k).2.2 hnext
    constructor
    · show List.Chain' _ (_ :: _)
      rw [List.chain'_cons']
      exact ⟨fun y hy => le_trans (hhead y hy) (le_refl _), hchain⟩
    · intro x hx
      simp only [Motor.healthTrace, List.head?_cons, Option.mem_def, Option.some.injEq] at hx
      exact hx ▸ h1

lemma healthTrace_chain_stage2 (g : ℕ → ℝ) :
    ∀ (n : ℕ) (m : Motor) (k : ℕ),
      (∀ i < n, m.stageAtTick (i + 1) = .STAGE_2_RAPID) →
      List.Chain' (fun a b => b ≤ a) (m.healthTrace g k n) ∧
      ∀ x ∈ (m.healthTrace g k n).head?, x ≤ max 0 m.state.motor_health := by
  intro n
  induction n with
  | zero => intro m k _; simp [Motor.healthTrace]
  | succ n ih =>
    intro m k hst
    have hupd := Motor.step_health_eq_update_at_stage2 g m k (hst 0 (Nat.succ_pos n))
    have h1 : ((m.step g k).2.1).state.motor_health ≤ max 0 m.state.motor_health := by
      rw [hupd]; exact update_stage2_le_max ..
    have h1nn : 0 ≤ ((m.step g k).2.1).state.motor_health := by
      rw [hupd]; exact update_stage2_nonneg ..
    have hnext : ∀ i < n, ((m.step g k).2.1).stageAtTick (i + 1) = .STAGE_2_RAPID := by
      intro i hi
      rw [Motor.stageAtTick_step]
      exact hst (i + 1) (by omega)
    obtain ⟨hchain, hhead⟩ := ih (m.step g k).2.1 (m.step g k).2.2 hnext
    constructor
    · show List.Chain' _ (_ :: _)
      rw [List.chain'_cons']
      refine ⟨fun y hy => ?_, hchain⟩
      have := hhead y hy
      rwa [max_eq_right h1nn] at this
    · intro x hx
      simp only [Motor.healthTrace, List.head?_cons, Option.mem_def, Option.some.injEq] at hx
      exact hx ▸ h1

/-! ## Claim theorems -/

/-- C4: for every emitted record, the categorical health_state is the
projection of motor_health through the configured ordered threshold pair
(the upper cut-off is named healthy_threshold in the code and
warning_threshold in the specification, the lower one warning_threshold in
the code and critical_threshold in the specification): Healthy iff
motor_health is at least the upper threshold, Warning iff it lies in the
half-open band, Critical iff it is below the lower threshold. -/
theorem C4_categorical_consistency (g : ℕ → ℝ) (m : Motor) (k : ℕ)
    (hthr : m.config.warningThreshold < m.config.healthyThreshold) :
    (((m.step g k).1).health_state = "Healthy" ↔
      m.config.healthyThreshold ≤ ((m.step g k).1).motor_health) ∧
    (((m.step g k).1).health_state = "Warning" ↔
      m.config.warningThreshold ≤ ((m.step g k).1).motor_health ∧
      ((m.step g k).1).motor_health < m.config.healthyThreshold) ∧
    (((m.step g k).1).health_state = "Critical" ↔
      ((m.step g k).1).motor_health < m.config.warningThreshold) := by
  rw [Motor.step_fst_health_state]
  exact determine_health_state_spec _ _ _ hthr

/-- Witness for C4 at a concrete motor and oracle. -/
theorem C4_categorical_consistency_witness :
    ((motorC6.step zeroG 0).1.health_state = "Healthy" ↔
      motorC6.config.healthyThreshold ≤ (motorC6.step zeroG 0).1.motor_health) ∧
    ((motorC6.step zeroG 0).1.health_state = "Warning" ↔
      motorC6.config.warningThreshold ≤ (motorC6.step zeroG 0).1.motor_health ∧
      (motorC6.step zeroG 0).1.motor_health < motorC6.config.healthyThreshold) ∧
    ((motorC6.step zeroG 0).1.health_state = "Critical" ↔
      (motorC6.step zeroG 0).1.motor_health < motorC6.config.warningThreshold) :=
  C4_categorical_consistency zeroG motorC6 0 (by
    simp only [motorC6, Config.warningThreshold, Config.healthyThreshold, DEFAULT_CONFIG]
    norm_num)

/-- C7: across any run of consecutive ticks that all fall in Stage 1, or all
fall in Stage 2, the post-tick motor_health values are non-increasing (the
stage-1 update writes the minimum of the previous health and the noisy model
value; the stage-2 update additionally clamps at zero). -/
theorem C7_monotonic_within_stage (g : ℕ → ℝ) (m : Motor) (k n : ℕ)
    (hst : (∀ i < n, m.stageAtTick (i + 1) = .STAGE_1_EARLY) ∨
           (∀ i < n, m.stageAtTick (i + 1) = .STAGE_2_RAPID)) :
    List.Chain' (fun a b => b ≤ a) (m.healthTrace g k n) := by
  rcases hst with h | h
  · exact (healthTrace_chain_stage1 g n m k h).1
  · exact (healthTrace_chain_stage2 g n m k h).1

/-- Witness for C7: two consecutive stage-1 ticks of a concrete motor. -/
theorem C7_monotonic_within_stage_witness :
    List.Chain' (fun a b => b ≤ a) (motorC6.healthTrace zeroG 0 2) :=
  C7_monotonic_within_stage zeroG motorC6 0 2 (Or.inl (by
    intro i hi
    interval_cases i <;>
      · simp only [Motor.stageAtTick, motorC6, determine_degradation_stage,
          Config.timeStepMinutes, DEFAULT_CONFIG, Option.getD_some]
        norm_num))

/-- C6 counterexample: one tick of a concrete motor in Stage 1 under an
extreme (but admissible) Gaussian draw leaves motor_health strictly below 0;
the stage-1 branch of update_motor_health has no lower clamp. -/
theorem C6_health_bounds_counterexample :
    ((motorC6.step negG 0).2.1).state.motor_health < 0 := by
  have hstage : determine_degradation_stage
      (motorC6.state.hours_since_maintenance + motorC6.config.timeStepMinutes / 60)
      motorC6.state.stage_0_duration_hours motorC6.state.stage_1_duration_hours
      motorC6.state.stage_2_duration_hours = .STAGE_1_EARLY := by
    simp only [motorC6, determine_degradation_stage, Config.timeStepMinutes,
      DEFAULT_CONFIG, Option.getD_some]
    norm_num
  rw [Motor.step_snd_motor_health, Motor.step_fst_motor_health, hstage]
  simp only [update_motor_health, npNormal, negG, motorC6, Config.timeStepMinutes,
    DEFAULT_CONFIG, Option.getD_some]
  norm_num

/-- C6 amended: the update keeps motor_health at most 1 in every stage (for
previous health in the unit interval and a stage-0 clamp band inside it), and
at least 0 in Stage 0 and Stage 2; in Stage 1 the update only guarantees the
monotone upper bound by the previous health, and can go below 0. -/
theorem C6_health_bounds_amended (g : ℕ → ℝ) (cur hours s0 s1 s2 b c2 : ℝ)
    (stage : DegradationStage) (cfg : Config) (k : ℕ)
    (h0 : 0 ≤ cur) (h1 : cur ≤ 1)
    (hb1 : 0.03 ≤ cfg.stage0BaseHealth) (hb2 : cfg.stage0BaseHealth ≤ 0.98) :
    (update_motor_health g cur hours stage s0 s1 s2 b c2 cfg k).1 ≤ 1 ∧
    (stage ≠ .STAGE_1_EARLY →
      0 ≤ (update_motor_health g cur hours stage s0 s1 s2 b c2 cfg k).1) ∧
    (stage = .STAGE_1_EARLY →
      (update_motor_health g cur hours stage s0 s1 s2 b c2 cfg k).1 ≤ cur) := by
  cases stage with
  | STAGE_0_HEALTHY =>
    refine ⟨?_, fun _ => ?_, fun h => by cases h⟩
    · simp only [update_motor_health, npClip]
      exact le_trans (min_le_right _ _) (by linarith)
    · simp only [update_motor_health, npClip]
      exact le_min (le_trans (by linarith) (le_max_right _ _)) (by linarith)
  | STAGE_1_EARLY =>
    refine ⟨le_trans (update_stage1_le ..) h1, fun h => absurd rfl h, fun _ => update_stage1_le ..⟩
  | STAGE_2_RAPID =>
    refine ⟨?_, fun _ => update_stage2_nonneg .., fun h => by cases h⟩
    exact le_trans (update_stage2_le g cur hours s0 s1 s2 b c2 cfg k h0) h1

/-- Witness for the amended C6 at a concrete stage-2 input. -/
theorem C6_health_bounds_amended_witness :
    (update_motor_health zeroG (1 / 2) 20 .STAGE_2_RAPID 10 5 5 2 0 DEFAULT_CONFIG 0).1 ≤ 1 ∧
    (DegradationStage.STAGE_2_RAPID ≠ .STAGE_1_EARLY →
      0 ≤ (update_motor_health zeroG (1 / 2) 20 .STAGE_2_RAPID 10 5 5 2 0 DEFAULT_CONFIG 0).1) ∧
    (DegradationStage.STAGE_2_RAPID = .STAGE_1_EARLY →
      (update_motor_health zeroG (1 / 2) 20 .STAGE_2_RAPID 10 5 5 2 0 DEFAULT_CONFIG 0).1 ≤ 1 / 2) :=
  C6_health_bounds_amended zeroG (1 / 2) 20 10 5 5 2 0 .STAGE_2_RAPID DEFAULT_CONFIG 0
    (by norm_num) (by norm_num)
    (by simp only [Config.stage0BaseHealth, DEFAULT_CONFIG, Option.getD_some]; norm_num)
    (by simp only [Config.stage0BaseHealth, DEFAULT_CONFIG, Option.getD_some]; norm_num)

lemma pyGetFloat_bearing_health (s : MotorHiddenState) :
    s.pyGetFloat "bearing_health" = none := rfl

/-- C3: evidence for the code bug.  Every call to
MaintenanceScheduler.perform_maintenance begins by reading
motor.state.bearing_health; the MotorHiddenState dataclass declares
motor_health but no bearing_health, so the call raises AttributeError for
every motor, every maintenance type and every timestep, before mutating any
state or recording any event. -/
theorem C3_perform_maintenance_always_raises (g : ℕ → ℝ) (sched : MaintenanceScheduler)
    (m : Motor) (maintenance_type : String) (timestep k : ℕ) :
    MaintenanceScheduler.performMaintenance g sched m maintenance_type timestep k =
      .error (.attributeError "bearing_health") := by
  unfold MaintenanceScheduler.performMaintenance
  rw [pyGetFloat_bearing_health]

lemma regimeAdvance_motors (g : ℕ → ℝ) (fs : FactoryState) (k : ℕ) :
    (regimeAdvance g fs k).1.motors = fs.motors := by
  unfold regimeAdvance
  dsimp only
  split_ifs <;> rfl

lemma kwargs_not_bindable :
    kwargsBindable should_perform_maintenance_params factory_step_maintenance_kwargs = false := by
  decide

lemma stepMotorsAux_cons_error (g : ℕ → ℝ) (p : RegimeParams) (fs : FactoryState)
    (m : Motor) (rest done : List Motor) (recs : List Record) (k : ℕ) :
    stepMotorsAux g p fs done (m :: rest) recs k =
      .error (.typeError spmTypeErrorMsg,
        { (criticalSchedulingPhase g fs m k).1 with
            motors := done ++ (criticalSchedulingPhase g fs m k).2.1 :: rest },
        (criticalSchedulingPhase g fs m k).2.2.2) := by
  simp only [stepMotorsAux, kwargs_not_bindable, Bool.false_eq_true, if_false]
  rfl

lemma factoryStep_typeError (g : ℕ → ℝ) (fs : FactoryState) (k : ℕ)
    (hm : fs.motors ≠ []) :
    ∃ fsE kE, FactorySimulator.step g fs k =
      .error (.typeError spmTypeErrorMsg, fsE, kE) := by
  obtain ⟨m, rest, hrest⟩ : ∃ m rest, fs.motors = m :: rest := by
    cases h : fs.motors with
    | nil => exact absurd h hm
    | cons a l => exact ⟨a, l, rfl⟩
  unfold FactorySimulator.step stepCore
  dsimp only
  have hmot : (regimeAdvance g fs k).1.motors = m :: rest := by
    rw [regimeAdvance_motors, hrest]
  rw [hmot, stepMotorsAux_cons_error]
  exact ⟨_, _, rfl⟩

/-- C2: evidence for the code bug.  FactorySimulator.step invokes
should_perform_maintenance with keyword arguments
(timestep, motor_id, motor_health), while the method declares
(timestep, motor_id, bearing_health); the keywords do not bind, so every
step() call on a factory with at least one motor raises TypeError instead of
returning one record per motor, whether or not maintenance is enabled. -/
theorem C2_step_always_raises (g : ℕ → ℝ) (fs : FactoryState) (k : ℕ)
    (hm : fs.motors ≠ []) :
    ∃ fsE kE, FactorySimulator.step g fs k =
      .error (.typeError spmTypeErrorMsg, fsE, kE) :=
  factoryStep_typeError g fs k hm

/-- Witness for C2: the freshly initialised one-motor factory. -/
theorem C2_step_always_raises_witness :
    ∃ fsE kE, FactorySimulator.step zeroG factory1 0 =
      .error (.typeError spmTypeErrorMsg, fsE, kE) :=
  C2_step_always_raises zeroG factory1 0 (by
    simp [factory1, factoryInit, List.range_succ])

/-- C10: the per-tick motor loop of FactorySimulator.step is invariant under
any change of the regime parameter bundle that preserves load_multiplier: the
records and the post-step factory state depend on none of noise_multiplier,
temp_multiplier and degradation_multiplier.  _apply_regime_effects itself
touches only load_factor, scaling it by load_multiplier and returning the
original value that the step restores. -/
theorem C10_regime_params_only_load (g : ℕ → ℝ) (p₁ p₂ : RegimeParams) (fs : FactoryState)
    (k : ℕ) (m : Motor) (hload : p₁.load_multiplier = p₂.load_multiplier) :
    stepCore g p₁ fs k = stepCore g p₂ fs k ∧
    (applyRegimeEffects m p₁).2 = m.state.load_factor ∧
    (applyRegimeEffects m p₁).1.state.load_factor =
      m.state.load_factor * p₁.load_multiplier := by
  refine ⟨?_, rfl, rfl⟩
  unfold stepCore
  cases h : fs.motors with
  | nil => rfl
  | cons a l => rw [stepMotorsAux_cons_error, stepMotorsAux_cons_error]

/-- Witness for C10 at the idle bundle against a bundle with the same load
multiplier but perturbed noise, temperature and degradation multipliers. -/
theorem C10_regime_params_only_load_witness :
    stepCore zeroG (get_regime_params "idle") factory1 0 =
      stepCore zeroG ⟨0.3, 99, 99, 99⟩ factory1 0 ∧
    (applyRegimeEffects motor0 (get_regime_params "idle")).2 = motor0.state.load_factor ∧
    (applyRegimeEffects motor0 (get_regime_params "idle")).1.state.load_factor =
      motor0.state.load_factor * (get_regime_params "idle").load_multiplier :=
  C10_regime_params_only_load zeroG (get_regime_params "idle") ⟨0.3, 99, 99, 99⟩ factory1 0 motor0
    (by simp [get_regime_params])

lemma performAutomaticMaintenance_spec (g : ℕ → ℝ) (m : Motor) (k : ℕ) :
    (performAutomaticMaintenance g m k).1.state.health_state = .HEALTHY ∧
    (performAutomaticMaintenance g m k).1.state.degradation_stage = .STAGE_0_HEALTHY ∧
    (performAutomaticMaintenance g m k).1.state.hours_since_maintenance = 0 ∧
    (performAutomaticMaintenance g m k).1.state.misalignment = m.state.misalignment * 0.3 ∧
    (performAutomaticMaintenance g m k).1.state.friction_coeff = m.config.base_friction * 1.1 ∧
    (performAutomaticMaintenance g m k).1.state.motor_health =
      (m.config.stage0BaseHealth - 0.02) + 0.02 * g k ∧
    (performAutomaticMaintenance g m k).1.state.target_hours_to_critical =
      m.config.minHoursToCritical +
        (m.config.maxHoursToCritical - m.config.minHoursToCritical) * g (k + 1) ∧
    (performAutomaticMaintenance g m k).1.state.stage_0_duration_hours +
        (performAutomaticMaintenance g m k).1.state.stage_1_duration_hours +
        (performAutomaticMaintenance g m k).1.state.stage_2_duration_hours =
      (performAutomaticMaintenance g m k).1.state.target_hours_to_critical ∧
    (performAutomaticMaintenance g m k).1.state.stage_1_power_exponent =
      m.config.stage1PowerExpMin +
        (m.config.stage1PowerExpMax - m.config.stage1PowerExpMin) * g (k + 4) := by
  refine ⟨rfl, rfl, rfl, rfl, rfl, ?_, ?_, ?_, ?_⟩ <;>
    simp only [performAutomaticMaintenance, npUniform] <;> ring_nf

lemma criticalSchedulingPhase_fires (g : ℕ → ℝ) (fs : FactoryState) (m : Motor) (k : ℕ)
    (t : ℕ) (hsome : fs.scheduled_automatic_maintenance m.motor_id = some t)
    (ht : t ≤ fs.time) (hh : m.state.motor_health < 0.30) :
    (criticalSchedulingPhase g fs m k).2.1 = (performAutomaticMaintenance g m k).1 ∧
    (criticalSchedulingPhase g fs m k).2.2.1 = true ∧
    (criticalSchedulingPhase g fs m k).1.scheduled_automatic_maintenance m.motor_id = none := by
  unfold criticalSchedulingPhase
  dsimp only
  rw [if_neg (by rintro ⟨-, -, hnone⟩; rw [hsome] at hnone; cases hnone)]
  dsimp only
  rw [hsome]
  dsimp only
  rw [if_pos ⟨ht, hh⟩]
  exact ⟨rfl, rfl, Function.update_same _ _ _⟩

/-- C5.  First conjunct: a motor that just transitioned into Critical with no
pending schedule gets an automatic maintenance scheduled between 1 and 288
ticks ahead, and nothing fires on that same tick.  Second conjunct: when the
clock has reached the scheduled tick and motor_health is below 0.30, the
automatic maintenance fires during the step: health is redrawn in
[0.93, 0.95], the categorical state becomes Healthy, the stage resets to
Stage 0, the hour counter clears, lifespan (within [1000, 3000]), stage
durations (summing to the lifespan) and the stage-1 exponent (within
[1.5, 3.5]) are re-sampled, misalignment shrinks to 0.3 of its value,
friction_coeff becomes 1.1 base_friction, and the schedule entry is
cleared. -/
theorem C5_automatic_maintenance_lifecycle (g : ℕ → ℝ) (fs : FactoryState) (m : Motor) (k : ℕ) :
    ((fs.previous_health_states m.motor_id ≠ some .CRITICAL →
      m.state.health_state = .CRITICAL →
      fs.scheduled_automatic_maintenance m.motor_id = none →
      ∃ d, 1 ≤ d ∧ d ≤ 288 ∧
        (criticalSchedulingPhase g fs m k).1.scheduled_automatic_maintenance m.motor_id =
          some (fs.time + d) ∧
        (criticalSchedulingPhase g fs m k).2.2.1 = false)) ∧
    (∀ t, fs.scheduled_automatic_maintenance m.motor_id = some t →
      t ≤ fs.time → m.state.motor_health < 0.30 →
      m.config.stage0BaseHealth = 0.95 →
      m.config.minHoursToCritical = 1000 → m.config.maxHoursToCritical = 3000 →
      m.config.stage1PowerExpMin = 1.5 → m.config.stage1PowerExpMax = 3.5 →
      0 ≤ g k → g k ≤ 1 → 0 ≤ g (k + 1) → g (k + 1) ≤ 1 → 0 ≤ g (k + 4) → g (k + 4) ≤ 1 →
      ((criticalSchedulingPhase g fs m k).2.2.1 = true ∧
       0.93 ≤ (criticalSchedulingPhase g fs m k).2.1.state.motor_health ∧
       (criticalSchedulingPhase g fs m k).2.1.state.motor_health ≤ 0.95 ∧
       (criticalSchedulingPhase g fs m k).2.1.state.health_state = .HEALTHY ∧
       (criticalSchedulingPhase g fs m k).2.1.state.degradation_stage = .STAGE_0_HEALTHY ∧
       (criticalSchedulingPhase g fs m k).2.1.state.hours_since_maintenance = 0 ∧
       1000 ≤ (criticalSchedulingPhase g fs m k).2.1.state.target_hours_to_critical ∧
       (criticalSchedulingPhase g fs m k).2.1.state.target_hours_to_critical ≤ 3000 ∧
       (criticalSchedulingPhase g fs m k).2.1.state.stage_0_duration_hours +
         (criticalSchedulingPhase g fs m k).2.1.state.stage_1_duration_hours +
         (criticalSchedulingPhase g fs m k).2.1.state.stage_2_duration_hours =
         (criticalSchedulingPhase g fs m k).2.1.state.target_hours_to_critical ∧
       1.5 ≤ (criticalSchedulingPhase g fs m k).2.1.state.stage_1_power_exponent ∧
       (criticalSchedulingPhase g fs m k).2.1.state.stage_1_power_exponent ≤ 3.5 ∧
       (criticalSchedulingPhase g fs m k).2.1.state.misalignment =
         m.state.misalignment * 0.3 ∧
       (criticalSchedulingPhase g fs m k).2.1.state.friction_coeff =
         m.config.base_friction * 1.1 ∧
       (criticalSchedulingPhase g fs m k).1.scheduled_automatic_maintenance m.motor_id =
         none)) := by
  constructor
  · intro hprev hcur hsched
    have hschedval : ∀ q : FactoryState × Motor × Bool × ℕ,
        q = criticalSchedulingPhase g fs m k → True := fun _ _ => trivial
    have hne : ¬ (fs.time + (1 + (Int.natAbs ⌊g k⌋) % 288) ≤ fs.time ∧
        m.state.motor_health < 0.30) := by
      rintro ⟨h1, -⟩; omega
    have hphase :
        (criticalSchedulingPhase g fs m k).1.scheduled_automatic_maintenance m.motor_id =
          some (fs.time + (1 + (Int.natAbs ⌊g k⌋) % 288)) ∧
        (criticalSchedulingPhase g fs m k).2.2.1 = false := by
      unfold criticalSchedulingPhase
      dsimp only
      rw [if_pos ⟨hprev, hcur, hsched⟩]
      dsimp only [npRandint]
      rw [Function.update_same]
      dsimp only
      rw [if_neg hne]
      exact ⟨Function.update_same _ _ _, rfl⟩
    exact ⟨1 + (Int.natAbs ⌊g k⌋) % 288, le_add_of_nonneg_right (Nat.zero_le _),
      by have := Nat.mod_lt (Int.natAbs ⌊g k⌋) (show 0 < 288 by norm_num); omega,
      hphase.1, hphase.2⟩
  · intro t hsome ht hh hbase hmin hmax hpmin hpmax hg0 hg1 hk10 hk11 hk40 hk41
    have b1 : 0.93 ≤ (m.config.stage0BaseHealth - 0.02) + 0.02 * g k := by
      rw [hbase]; linarith
    have b2 : (m.config.stage0BaseHealth - 0.02) + 0.02 * g k ≤ 0.95 := by
      rw [hbase]; linarith
    have b3 : 1000 ≤ m.config.minHoursToCritical +
        (m.config.maxHoursToCritical - m.config.minHoursToCritical) * g (k + 1) := by
      rw [hmin, hmax]; linarith
    have b4 : m.config.minHoursToCritical +
        (m.config.maxHoursToCritical - m.config.minHoursToCritical) * g (k + 1) ≤ 3000 := by
      rw [hmin, hmax]; linarith
    have b5 : 1.5 ≤ m.config.stage1PowerExpMin +
        (m.config.stage1PowerExpMax - m.config.stage1PowerExpMin) * g (k + 4) := by
      rw [hpmin, hpmax]; linarith
    have b6 : m.config.stage1PowerExpMin +
        (m.config.stage1PowerExpMax - m.config.stage1PowerExpMin) * g (k + 4) ≤ 3.5 := by
      rw [hpmin, hpmax]; linarith
    obtain ⟨hm1, hflag, hcleared⟩ := criticalSchedulingPhase_fires g fs m k t hsome ht hh
    obtain ⟨e1, e2, e3, e4, e5, e6, e7, e8, e9⟩ := performAutomaticMaintenance_spec g m k
    rw [hm1, hflag]
    exact ⟨rfl, e6 ▸ b1, e6 ▸ b2, e1, e2, e3, e7 ▸ b3, e7 ▸ b4, e8, e9 ▸ b5, e9 ▸ b6,
      e4, e5, hcleared⟩

/-- Witness for C5: the scheduling conjunct at a fresh factory whose motor
just turned Critical, and the firing conjunct at a factory whose schedule for
motor 0 is already due. -/
theorem C5_automatic_maintenance_lifecycle_witness :
    (∃ d, 1 ≤ d ∧ d ≤ 288 ∧
      (criticalSchedulingPhase zeroG factory1 motorC5 0).1.scheduled_automatic_maintenance
        motorC5.motor_id = some (factory1.time + d) ∧
      (criticalSchedulingPhase zeroG factory1 motorC5 0).2.2.1 = false) ∧
    ((criticalSchedulingPhase zeroG fsC5 motorC5 0).2.2.1 = true ∧
     0.93 ≤ (criticalSchedulingPhase zeroG fsC5 motorC5 0).2.1.state.motor_health ∧
     (criticalSchedulingPhase zeroG fsC5 motorC5 0).2.1.state.motor_health ≤ 0.95 ∧
     (criticalSchedulingPhase zeroG fsC5 motorC5 0).2.1.state.health_state = .HEALTHY ∧
     (criticalSchedulingPhase zeroG fsC5 motorC5 0).2.1.state.degradation_stage =
       .STAGE_0_HEALTHY ∧
     (criticalSchedulingPhase zeroG fsC5 motorC5 0).2.1.state.hours_since_maintenance = 0 ∧
     1000 ≤ (criticalSchedulingPhase zeroG fsC5 motorC5 0).2.1.state.target_hours_to_critical ∧
     (criticalSchedulingPhase zeroG fsC5 motorC5 0).2.1.state.target_hours_to_critical ≤ 3000 ∧
     (criticalSchedulingPhase zeroG fsC5 motorC5 0).2.1.state.stage_0_duration_hours +
       (criticalSchedulingPhase zeroG fsC5 motorC5 0).2.1.state.stage_1_duration_hours +
       (criticalSchedulingPhase zeroG fsC5 motorC5 0).2.1.state.stage_2_duration_hours =
       (criticalSchedulingPhase zeroG fsC5 motorC5 0).2.1.state.target_hours_to_critical ∧
     1.5 ≤ (criticalSchedulingPhase zeroG fsC5 motorC5 0).2.1.state.stage_1_power_exponent ∧
     (criticalSchedulingPhase zeroG fsC5 motorC5 0).2.1.state.stage_1_power_exponent ≤ 3.5 ∧
     (criticalSchedulingPhase zeroG fsC5 motorC5 0).2.1.state.misalignment =
       motorC5.state.misalignment * 0.3 ∧
     (criticalSchedulingPhase zeroG fsC5 motorC5 0).2.1.state.friction_coeff =
       motorC5.config.base_friction * 1.1 ∧
     (criticalSchedulingPhase zeroG fsC5 motorC5 0).1.scheduled_automatic_maintenance
       motorC5.motor_id = none) := by
  constructor
  · exact (C5_automatic_maintenance_lifecycle zeroG factory1 motorC5 0).1
      (by simp [factory1, factoryInit]) rfl (by simp [factory1, factoryInit])
  · exact (C5_automatic_maintenance_lifecycle zeroG fsC5 motorC5 0).2 5
      (by
        show Function.update (fun _ => none) 0 (some 5) motorC5.motor_id = some 5
        have : motorC5.motor_id = 0 := rfl
        rw [this, Function.update_same])
      (by show (5 : ℕ) ≤ 10; norm_num)
      (by show (0.2 : ℝ) < 0.30; norm_num)
      (by simp [motorC5, motorC6, Config.stage0BaseHealth, DEFAULT_CONFIG])
      (by simp [motorC5, motorC6, Config.minHoursToCritical, DEFAULT_CONFIG])
      (by simp [motorC5, motorC6, Config.maxHoursToCritical, DEFAULT_CONFIG])
      (by simp [motorC5, motorC6, Config.stage1PowerExpMin, DEFAULT_CONFIG])
      (by simp [motorC5, motorC6, Config.stage1PowerExpMax, DEFAULT_CONFIG])
      (by norm_num [zeroG]) (by norm_num [zeroG]) (by norm_num [zeroG])
      (by norm_num [zeroG]) (by norm_num [zeroG]) (by norm_num [zeroG])

lemma managerStep_typeError (g : ℕ → ℝ) (ms : ManagerState) (k : ℕ)
    (hm : ms.factory.motors ≠ []) :
    ∃ msE kE, SimulatorManager.step g ms 1 k =
      .error (.typeError spmTypeErrorMsg, msE, kE) := by
  obtain ⟨fsE, kE, hstep⟩ := factoryStep_typeError g ms.factory k hm
  unfold SimulatorManager.step
  rw [show (1 : ℕ) = 0 + 1 from rfl]
  unfold managerStepAux
  rw [hstep]
  exact ⟨_, _, rfl⟩

lemma resetMotorList_head (mF : Motor) (rest : List Motor) (mid : ℕ)
    (hid : mF.motor_id = mid) :
    resetMotorList (mF :: rest) mid =
      ({ mF with state := { mF.state with
          motor_health := 1.0
          misalignment := 0.05
          friction_coeff := REALISTIC_CONFIG.base_friction } } :: rest, true) := by
  unfold resetMotorList
  rw [if_pos hid]

/-- C9: evidence for the code bug.  handle_motor_maintenance on a paused motor
does unpause it and sets the hidden motor_health to 1.0, but it leaves
hours_since_maintenance (and the categorical state and stage) untouched, and
the very next SimulatorManager.step call raises the TypeError from
FactorySimulator.step, so the motor emits no record at all, let alone one
with motor_health at least 0.9. -/
theorem C9_resume_after_maintenance (g : ℕ → ℝ) (ms : ManagerState) (mid k : ℕ)
    (mF : Motor) (rest : List Motor)
    (hmotors : ms.factory.motors = mF :: rest) (hid : mF.motor_id = mid)
    (hpaused : (ms.paused_motors.map Prod.fst).contains mid = true) :
    ((SimulatorManager.handleMotorMaintenance ms mid).paused_motors.map Prod.fst).contains mid
        = false ∧
    ((SimulatorManager.handleMotorMaintenance ms mid).pending_decisions).contains mid = false ∧
    (∃ mF', (SimulatorManager.handleMotorMaintenance ms mid).factory.motors = mF' :: rest ∧
      mF'.state.motor_health = 1.0 ∧
      mF'.state.hours_since_maintenance = mF.state.hours_since_maintenance ∧
      mF'.state.health_state = mF.state.health_state ∧
      mF'.state.degradation_stage = mF.state.degradation_stage) ∧
    (∃ msE kE, SimulatorManager.step g (SimulatorManager.handleMotorMaintenance ms mid) 1 k =
      .error (.typeError spmTypeErrorMsg, msE, kE)) := by
  have hreset : SimulatorManager.resetMotor ms mid =
      { ms with
        factory := { ms.factory with motors :=
          ({ mF with state := { mF.state with
              motor_health := 1.0
              misalignment := 0.05
              friction_coeff := REALISTIC_CONFIG.base_friction } } :: rest) }
        last_maintenance_time :=
          Function.update ms.last_maintenance_time mid ms.current_time } := by
    unfold SimulatorManager.resetMotor
    rw [hmotors, resetMotorList_head mF rest mid hid]
    simp
  have hhandle : SimulatorManager.handleMotorMaintenance ms mid =
      { SimulatorManager.resetMotor ms mid with
        paused_motors :=
          (SimulatorManager.resetMotor ms mid).paused_motors.filter (fun p => ¬ p.1 = mid)
        pending_decisions :=
          (SimulatorManager.resetMotor ms mid).pending_decisions.filter (fun i => ¬ i = mid) } := by
    unfold SimulatorManager.handleMotorMaintenance
    rw [if_pos hpaused]
  refine ⟨?_, ?_, ?_, ?_⟩
  · rw [hhandle]
    simp [List.contains_iff_exists_mem_beq, List.mem_filter]
  · rw [hhandle]
    simp [List.contains_iff_exists_mem_beq, List.mem_filter]
  · rw [hhandle]
    dsimp only
    rw [hreset]
    exact ⟨_, rfl, rfl, rfl, rfl, rfl⟩
  · apply managerStep_typeError
    rw [hhandle]
    dsimp only
    rw [hreset]
    simp

/-- Witness for C9 on the concrete paused one-motor live manager. -/
theorem C9_resume_after_maintenance_witness :
    ((SimulatorManager.handleMotorMaintenance managerC9 0).paused_motors.map Prod.fst).contains 0
        = false ∧
    ((SimulatorManager.handleMotorMaintenance managerC9 0).pending_decisions).contains 0
        = false ∧
    (∃ mF', (SimulatorManager.handleMotorMaintenance managerC9 0).factory.motors = mF' :: [] ∧
      mF'.state.motor_health = 1.0 ∧
      mF'.state.hours_since_maintenance =
        (createMotor zeroG 0 DEFAULT_CONFIG 0).1.state.hours_since_maintenance ∧
      mF'.state.health_state = (createMotor zeroG 0 DEFAULT_CONFIG 0).1.state.health_state ∧
      mF'.state.degradation_stage =
        (createMotor zeroG 0 DEFAULT_CONFIG 0).1.state.degradation_stage) ∧
    (∃ msE kE, SimulatorManager.step zeroG (SimulatorManager.handleMotorMaintenance managerC9 0)
        1 0 = .error (.typeError spmTypeErrorMsg, msE, kE)) :=
  C9_resume_after_maintenance zeroG managerC9 0 0 (createMotor zeroG 0 DEFAULT_CONFIG 0).1 []
    (by simp [managerC9, factory1, factoryInit, List.range_succ])
    rfl
    (by simp [managerC9])

lemma countAuto_nil (i : ℕ) : countAuto i [] = 0 := rfl

lemma countAuto_append (i : ℕ) (a b : List Record) :
    countAuto i (a ++ b) = countAuto i a + countAuto i b := by
  simp [countAuto, List.filter_append]

lemma countAuto_cons (i : ℕ) (r : Record) (l : List Record) :
    countAuto i (r :: l) =
      (if r.motor_id = i ∧ r.maintenance_event = some "automatic_maintenance" then 1 else 0) +
        countAuto i l := by
  simp only [countAuto, List.filter_cons, decide_eq_true_eq]
  by_cases h : (r.motor_id = i ∧ r.maintenance_event = some "automatic_maintenance")
  · rw [if_pos h, if_pos h, List.length_cons]; omega
  · rw [if_neg h, if_neg h]; omega

lemma performAutomaticMaintenance_motor_id (g : ℕ → ℝ) (m : Motor) (k : ℕ) :
    (performAutomaticMaintenance g m k).1.motor_id = m.motor_id := rfl

lemma resetHealthOnly_motor_id (g : ℕ → ℝ) (m : Motor) (k : ℕ) :
    (resetHealthOnly g m k).1.motor_id = m.motor_id := rfl

lemma mkRecord_motor_id (s : SensorDict) (mid : ℕ) (c : Option ℕ) (t : ℝ) (reg : String)
    (ev : Option String) : (mkRecord s mid c t reg ev).motor_id = mid := rfl

lemma mkRecord_event (s : SensorDict) (mid : ℕ) (c : Option ℕ) (t : ℝ) (reg : String)
    (ev : Option String) : (mkRecord s mid c t reg ev).maintenance_event = ev := rfl

lemma countAuto_pair (i mid : ℕ) (s1 s2 : SensorDict) (c : Option ℕ) (t1 t2 : ℝ)
    (reg : String) :
    countAuto i [mkRecord s1 mid c t1 reg none,
      mkRecord s2 mid c t2 reg (some "automatic_maintenance")] =
      if i = mid then 1 else 0 := by
  rw [countAuto_cons, countAuto_cons, countAuto_nil]
  simp only [mkRecord_motor_id, mkRecord_event]
  by_cases h : i = mid
  · subst h; simp
  · rw [if_neg (by rintro ⟨h1, -⟩; exact h h1.symm), if_neg (by rintro ⟨h1, -⟩; exact h h1.symm),
      if_neg h]

lemma countAuto_single_none (i mid : ℕ) (s1 : SensorDict) (c : Option ℕ) (t1 : ℝ)
    (reg : String) :
    countAuto i [mkRecord s1 mid c t1 reg none] = 0 := by
  rw [countAuto_cons, countAuto_nil]
  simp only [mkRecord_motor_id, mkRecord_event]
  rw [if_neg (by rintro ⟨-, h2⟩; cases h2)]

lemma genMotorBody_spec (g : ℕ → ℝ) (target : ℕ) (regime : String) (time : ℕ)
    (m : Motor) (cycles : ℕ → ℕ) (completed : ℕ → Bool) (k : ℕ)
    (hc : completed m.motor_id = decide (target ≤ cycles m.motor_id))
    (hle : cycles m.motor_id ≤ target) :
    (genMotorBody g target regime time m cycles completed k).1.motor_id = m.motor_id ∧
    (∀ i, i ≠ m.motor_id →
      (genMotorBody g target regime time m cycles completed k).2.1 i = cycles i ∧
      (genMotorBody g target regime time m cycles completed k).2.2.1 i = completed i) ∧
    (genMotorBody g target regime time m cycles completed k).2.1 m.motor_id ≤ target ∧
    (genMotorBody g target regime time m cycles completed k).2.2.1 m.motor_id =
      decide (target ≤ (genMotorBody g target regime time m cycles completed k).2.1 m.motor_id) ∧
    (∀ i, countAuto i (genMotorBody g target regime time m cycles completed k).2.2.2.1 +
      cycles i = (genMotorBody g target regime time m cycles completed k).2.1 i) := by
  unfold genMotorBody
  dsimp only
  by_cases hcomp : completed m.motor_id = true
  · rw [if_pos hcomp]
    exact ⟨rfl, fun i _ => ⟨rfl, rfl⟩, hle, hc, fun i => by
      rw [countAuto_nil]; exact Nat.zero_add _⟩
  · rw [if_neg hcomp]
    have hlt : cycles m.motor_id < target := by
      rw [hc] at hcomp
      simpa using hcomp
    by_cases hcrit : ((m.step g k).2.1).state.health_state = .CRITICAL
    · rw [if_pos hcrit]
      rw [Function.update_same]
      by_cases hdone : target ≤ cycles m.motor_id + 1
      · rw [if_pos hdone]
        dsimp only
        refine ⟨?_, fun i hi => ⟨?_, ?_⟩, ?_, ?_, ?_⟩
        · rw [Motor.step_motor_id, performAutomaticMaintenance_motor_id, Motor.step_motor_id]
        · rw [Function.update_noteq hi]
        · rw [Function.update_noteq hi]
        · rw [Function.update_same]; omega
        · rw [Function.update_same, Function.update_same]
          simp [hdone]
        · intro i
          rw [countAuto_pair]
          by_cases hi : i = m.motor_id
          · subst hi; rw [Function.update_same, if_pos rfl]; omega
          · rw [Function.update_noteq hi, if_neg hi]; omega
      · rw [if_neg hdone]
        dsimp only
        refine ⟨?_, fun i hi => ⟨?_, ?_⟩, ?_, ?_, ?_⟩
        · rw [resetHealthOnly_motor_id, Motor.step_motor_id,
            performAutomaticMaintenance_motor_id, Motor.step_motor_id]
        · rw [Function.update_noteq hi]
        · rfl
        · rw [Function.update_same]; omega
        · rw [Function.update_same, hc]
          simp only [decide_eq_decide]
          omega
        · intro i
          rw [countAuto_pair]
          by_cases hi : i = m.motor_id
          · subst hi; rw [Function.update_same, if_pos rfl]; omega
          · rw [Function.update_noteq hi, if_neg hi]; omega
    · rw [if_neg hcrit]
      refine ⟨Motor.step_motor_id g m k, fun i _ => ⟨rfl, rfl⟩, hle, hc, ?_⟩
      intro i
      rw [countAuto_single_none]
      exact Nat.zero_add _

lemma genMotors_spec (g : ℕ → ℝ) (target : ℕ) (regime : String) (time : ℕ) :
    ∀ (ms : List Motor) (cycles : ℕ → ℕ) (completed : ℕ → Bool) (k : ℕ),
      (∀ i, completed i = decide (target ≤ cycles i)) →
      (∀ i, cycles i ≤ target) →
      ((genMotors g target regime time ms cycles completed k).1.map Motor.motor_id =
        ms.map Motor.motor_id) ∧
      (∀ i, countAuto i (genMotors g target regime time ms cycles completed k).2.2.2.1 +
        cycles i = (genMotors g target regime time ms cycles completed k).2.1 i) ∧
      (∀ i, (genMotors g target regime time ms cycles completed k).2.1 i ≤ target) ∧
      (∀ i, (genMotors g target regime time ms cycles completed k).2.2.1 i =
        decide (target ≤ (genMotors g target regime time ms cycles completed k).2.1 i)) := by
  intro ms
  induction ms with
  | nil =>
    intro cycles completed k hcomp hle
    refine ⟨rfl, fun i => ?_, hle, hcomp⟩
    show countAuto i [] + cycles i = cycles i
    rw [countAuto_nil]
    exact Nat.zero_add _
  | cons m rest ih =>
    intro cycles completed k hcomp hle
    obtain ⟨hbid, hbother, hble, hbcomp, hbcnt⟩ :=
      genMotorBody_spec g target regime time m cycles completed k (hcomp m.motor_id)
        (hle m.motor_id)
    have hcomp1 : ∀ i,
        (genMotorBody g target regime time m cycles completed k).2.2.1 i =
          decide (target ≤ (genMotorBody g target regime time m cycles completed k).2.1 i) := by
      intro i
      by_cases hi : i = m.motor_id
      · subst hi; exact hbcomp
      · rw [(hbother i hi).1, (hbother i hi).2]; exact hcomp i
    have hle1 : ∀ i, (genMotorBody g target regime time m cycles completed k).2.1 i ≤ target := by
      intro i
      by_cases hi : i = m.motor_id
      · subst hi; exact hble
      · rw [(hbother i hi).1]; exact hle i
    obtain ⟨rmap, rcnt, rle, rcomp⟩ := ih
      (genMotorBody g target regime time m cycles completed k).2.1
      (genMotorBody g target regime time m cycles completed k).2.2.1
      (genMotorBody g target regime time m cycles completed k).2.2.2.2 hcomp1 hle1
    have e1 : (genMotors g target regime time (m :: rest) cycles completed k).1 =
        (genMotorBody g target regime time m cycles completed k).1 ::
          (genMotors g target regime time rest
            (genMotorBody g target regime time m cycles completed k).2.1
            (genMotorBody g target regime time m cycles completed k).2.2.1
            (genMotorBody g target regime time m cycles completed k).2.2.2.2).1 := rfl
    have e2 : (genMotors g target regime time (m :: rest) cycles completed k).2.2.2.1 =
        (genMotorBody g target regime time m cycles completed k).2.2.2.1 ++
          (genMotors g target regime time rest
            (genMotorBody g target regime time m cycles completed k).2.1
            (genMotorBody g target regime time m cycles completed k).2.2.1
            (genMotorBody g target regime time m cycles completed k).2.2.2.2).2.2.2.1 := rfl
    have e3 : (genMotors g target regime time (m :: rest) cycles completed k).2.1 =
        (genMotors g target regime time rest
          (genMotorBody g target regime time m cycles completed k).2.1
          (genMotorBody g target regime time m cycles completed k).2.2.1
          (genMotorBody g target regime time m cycles completed k).2.2.2.2).2.1 := rfl
    have e4 : (genMotors g target regime time (m :: rest) cycles completed k).2.2.1 =
        (genMotors g target regime time rest
          (genMotorBody g target regime time m cycles completed k).2.1
          (genMotorBody g target regime time m cycles completed k).2.2.1
          (genMotorBody g target regime time m cycles completed k).2.2.2.2).2.2.1 := rfl
    refine ⟨?_, ?_, ?_, ?_⟩
    · rw [e1, List.map_cons, hbid, rmap, List.map_cons]
    · intro i
      rw [e2, e3, countAuto_append]
      have h1 := hbcnt i
      have h2 := rcnt i
      omega
    · intro i; rw [e3]; exact rle i
    · intro i; rw [e3, e4]; exact rcomp i

lemma genIter_inv (g : ℕ → ℝ) (target : ℕ) (s : GenState) (h : GenInv target s) :
    GenInv target (genIter g target s) ∧
    ((genIter g target s).motors.map Motor.motor_id = s.motors.map Motor.motor_id) := by
  obtain ⟨hmap, hcnt, hle, hcomp⟩ := genMotors_spec g target s.regime s.current_time s.motors
    s.cycles s.completed s.k (fun i => (h i).2.2) (fun i => (h i).2.1)
  constructor
  · intro i
    refine ⟨?_, hle i, hcomp i⟩
    show countAuto i ((genIter g target s).history ++ (genIter g target s).batch) = _
    have hrecs :
        countAuto i ((genIter g target s).history ++ (genIter g target s).batch) =
          countAuto i (s.history ++ s.batch) +
            countAuto i (genMotors g target s.regime s.current_time s.motors s.cycles
              s.completed s.k).2.2.2.1 := by
      unfold genIter
      dsimp only
      by_cases hfl : 25000 ≤ (s.batch ++
          (genMotors g target s.regime s.current_time s.motors s.cycles
            s.completed s.k).2.2.2.1).length
      · rw [if_pos hfl]
        dsimp only
        rw [List.append_nil, ← List.append_assoc, countAuto_append, countAuto_append]
      · rw [if_neg hfl]
        dsimp only
        rw [← List.append_assoc, countAuto_append, countAuto_append]
    rw [hrecs, (h i).1]
    have h2 := hcnt i
    show _ = (genIter g target s).cycles i
    unfold genIter
    dsimp only
    omega
  · unfold genIter
    dsimp only
    exact hmap

lemma genLoop_inv (g : ℕ → ℝ) (target : ℕ) (mem : ℕ → ℝ) :
    ∀ (fuel : ℕ) (s : GenState), GenInv target s →
      GenInv target (genLoop g target mem fuel s) ∧
      ((genLoop g target mem fuel s).motors.map Motor.motor_id =
        s.motors.map Motor.motor_id) := by
  intro fuel
  induction fuel with
  | zero => intro s h; exact ⟨h, rfl⟩
  | succ n ih =>
    intro s h
    unfold genLoop
    by_cases h1 : s.motors.all (fun m => s.completed m.motor_id) = true
    · rw [if_pos h1]; exact ⟨h, rfl⟩
    · rw [if_neg h1]
      by_cases h2 : s.global_timestep % 5000 = 0 ∧ 0 < s.global_timestep ∧
          ¬ checkMemoryLimits (mem s.global_timestep) s.history.length = true
      · rw [if_pos h2]; exact ⟨h, rfl⟩
      · rw [if_neg h2]
        obtain ⟨hi, hmap⟩ := genIter_inv g target s h
        obtain ⟨hi2, hmap2⟩ := ih (genIter g target s) hi
        exact ⟨hi2, by rw [hmap2, hmap]⟩

/-- C8 counterexample: a batch run stopped by the max-step ceiling returns
with zero automatic_maintenance records for motor 0 although its target is
one cycle; no force-closing happens. -/
theorem C8_cycle_count_counterexample :
    countAuto 0 (generateUntilAllCritical zeroG 1 memLow 0 [motor0] "normal" 0).history ≠ 1 := by
  unfold generateUntilAllCritical genLoop
  dsimp only
  rw [countAuto_append, countAuto_nil]
  omega

/-- C8 amended: for every motor id, the returned history carries exactly
cycles(id) automatic_maintenance records, never more than the target, and
exactly the target for every motor flagged completed — so on natural
completion (all motors completed) every motor has emitted exactly
target_maintenance_cycles automatic maintenance records; a run stopped by
the ceiling or the memory guard simply leaves the incomplete motors short,
with no synthesised force-close records. -/
theorem C8_cycle_count_invariant (g : ℕ → ℝ) (target : ℕ) (mem : ℕ → ℝ) (maxSteps : ℕ)
    (motors : List Motor) (regime : String) (k : ℕ) (htar : 1 ≤ target) :
    ∀ i : ℕ,
      countAuto i (generateUntilAllCritical g target mem maxSteps motors regime k).history =
        (generateUntilAllCritical g target mem maxSteps motors regime k).cycles i ∧
      (generateUntilAllCritical g target mem maxSteps motors regime k).cycles i ≤ target ∧
      ((generateUntilAllCritical g target mem maxSteps motors regime k).completed i = true →
        countAuto i (generateUntilAllCritical g target mem maxSteps motors regime k).history =
          target) := by
  intro i
  have hinv0 : GenInv target
      { motors := (resetAllMotors g motors k).1
        regime := regime
        cycles := fun _ => 0
        completed := fun _ => false
        history := []
        batch := []
        current_time := 0
        global_timestep := 0
        k := (resetAllMotors g motors k).2 } := by
    intro j
    refine ⟨rfl, Nat.zero_le _, ?_⟩
    have : ¬ (target ≤ 0) := by omega
    simp [this]
  obtain ⟨hinv, -⟩ := genLoop_inv g target mem maxSteps _ hinv0
  obtain ⟨hc1, hc2, hc3⟩ := hinv i
  unfold generateUntilAllCritical
  dsimp only
  refine ⟨hc1, hc2, ?_⟩
  intro hdone
  rw [hdone] at hc3
  have htarget := of_decide_eq_true hc3.symm
  rw [hc1]
  omega

/-- Witness for the amended C8 at a concrete ceiling-stopped run. -/
theorem C8_cycle_count_invariant_witness :
    countAuto 0 (generateUntilAllCritical zeroG 1 memLow 0 [motor0] "normal" 0).history =
      (generateUntilAllCritical zeroG 1 memLow 0 [motor0] "normal" 0).cycles 0 ∧
    (generateUntilAllCritical zeroG 1 memLow 0 [motor0] "normal" 0).cycles 0 ≤ 1 ∧
    ((generateUntilAllCritical zeroG 1 memLow 0 [motor0] "normal" 0).completed 0 = true →
      countAuto 0 (generateUntilAllCritical zeroG 1 memLow 0 [motor0] "normal" 0).history = 1) :=
  C8_cycle_count_invariant zeroG 1 memLow 0 [motor0] "normal" 0 (le_refl 1) 0

lemma update_stage0_bounds (g : ℕ → ℝ) (cur hours s0 s1 s2 b c2 : ℝ) (cfg : Config) (k : ℕ) :
    cfg.stage0BaseHealth - 0.03 ≤
      (update_motor_health g cur hours .STAGE_0_HEALTHY s0 s1 s2 b c2 cfg k).1 ∧
    (update_motor_health g cur hours .STAGE_0_HEALTHY s0 s1 s2 b c2 cfg k).1 ≤
      cfg.stage0BaseHealth + 0.02 := by
  simp only [update_motor_health, npClip]
  exact ⟨le_min (le_max_right _ _) (by linarith), min_le_right _ _⟩

lemma Motor.step_health_eq_update_at_stage0 (g : ℕ → ℝ) (m : Motor) (k : ℕ)
    (hst : m.stageAtTick 1 = .STAGE_0_HEALTHY) :
    ((m.step g k).2.1).state.motor_health =
      (update_motor_health g m.state.motor_health
        (m.state.hours_since_maintenance + m.config.timeStepMinutes / 60)
        .STAGE_0_HEALTHY
        m.state.stage_0_duration_hours m.state.stage_1_duration_hours
        m.state.stage_2_duration_hours m.state.stage_1_power_exponent
        m.state.stage_2_exp_coefficient m.config k).1 := by
  rw [Motor.step_snd_motor_health, Motor.step_fst_motor_health]
  have harg : m.state.hours_since_maintenance + m.config.timeStepMinutes / 60 =
      m.state.hours_since_maintenance + (1 : ℕ) * (m.config.timeStepMinutes / 60) := by
    push_cast; ring
  unfold Motor.stageAtTick at hst
  rw [harg, hst]

lemma batchConfig_timeStep : batchConfig.timeStepMinutes = 5 := rfl

lemma batchConfig_healthy : batchConfig.healthyThreshold = 0.7 := rfl

lemma batchConfig_base : batchConfig.stage0BaseHealth = 0.95 := rfl

lemma stage0RunInv_step (g : ℕ → ℝ) (target : ℕ) (n : ℕ) (s : GenState)
    (hn : n < 5001) (h : stage0RunInv n s) :
    stage0RunInv (n + 1) (genIter g target s) := by
  obtain ⟨⟨m, hms, hcfg, h0d, h1d, h2d, hhours, hstate, hcomp⟩, hhist, hblen, hts⟩ := h
  have hnR : (n : ℝ) ≤ 5000 := by exact_mod_cast Nat.lt_succ_iff.mp hn
  have hstage : m.stageAtTick 1 = .STAGE_0_HEALTHY := by
    unfold Motor.stageAtTick
    rw [hhours, h0d, h1d, h2d, hcfg, batchConfig_timeStep]
    unfold determine_degradation_stage
    rw [if_pos (by push_cast; linarith)]
  have hupd := Motor.step_health_eq_update_at_stage0 g m s.k hstage
  have hh := update_stage0_bounds g m.state.motor_health
    (m.state.hours_since_maintenance + m.config.timeStepMinutes / 60)
    m.state.stage_0_duration_hours m.state.stage_1_duration_hours
    m.state.stage_2_duration_hours m.state.stage_1_power_exponent
    m.state.stage_2_exp_coefficient m.config s.k
  have hbase : m.config.stage0BaseHealth = 0.95 := by rw [hcfg]; exact batchConfig_base
  rw [hbase] at hh
  have hbounds : 0.92 ≤ ((m.step g s.k).2.1).state.motor_health ∧
      ((m.step g s.k).2.1).state.motor_health ≤ 0.97 := by
    rw [hupd]
    exact ⟨by linarith [hh.1], by linarith [hh.2]⟩
  have hstate1 : ((m.step g s.k).2.1).state.health_state = .HEALTHY := by
    rw [Motor.step_snd_health_state]
    have hmh : ((m.step g s.k).1).motor_health = ((m.step g s.k).2.1).state.motor_health :=
      (Motor.step_snd_motor_health g m s.k).symm
    rw [hmh, hcfg, batchConfig_healthy]
    unfold determine_health_state
    rw [if_pos (by linarith [hbounds.1])]
  have hbody : genMotorBody g target s.regime s.current_time m s.cycles s.completed s.k =
      ((m.step g s.k).2.1, s.cycles, s.completed,
        [mkRecord (m.step g s.k).1 m.motor_id (some (s.cycles m.motor_id))
          (s.current_time : ℝ) s.regime none], (m.step g s.k).2.2) := by
    unfold genMotorBody
    dsimp only
    rw [if_neg (by rw [hcomp]; simp)]
    rw [if_neg (by rw [hstate1]; simp)]
  have hgm : genMotors g target s.regime s.current_time s.motors s.cycles s.completed s.k =
      ([(m.step g s.k).2.1], s.cycles, s.completed,
        [mkRecord (m.step g s.k).1 m.motor_id (some (s.cycles m.motor_id))
          (s.current_time : ℝ) s.regime none], (m.step g s.k).2.2) := by
    rw [hms]
    show genMotors g target s.regime s.current_time [m] s.cycles s.completed s.k = _
    unfold genMotors
    rw [hbody]
    rfl
  have hlen : (s.batch ++ [mkRecord (m.step g s.k).1 m.motor_id (some (s.cycles m.motor_id))
      (s.current_time : ℝ) s.regime none]).length = n + 1 := by
    rw [List.length_append, hblen]
    rfl
  unfold genIter stage0RunInv
  rw [hgm]
  dsimp only
  rw [if_neg (by rw [hlen]; omega)]
  dsimp only
  refine ⟨⟨(m.step g s.k).2.1, rfl, ?_, ?_, ?_, ?_, ?_, hstate1, ?_⟩, hhist, ?_, ?_⟩
  · rw [Motor.step_config, hcfg]
  · rw [(Motor.step_durations g m s.k).1, h0d]
  · rw [(Motor.step_durations g m s.k).2.1, h1d]
  · rw [(Motor.step_durations g m s.k).2.2, h2d]
  · rw [Motor.step_hours, hhours, hcfg, batchConfig_timeStep]
    push_cast
    ring
  · rw [Motor.step_motor_id]
    exact hcomp
  · exact hlen
  · rw [hts]

lemma genLoop_memLow (g : ℕ → ℝ) :
    ∀ (fuel n : ℕ) (s : GenState), stage0RunInv n s → n + fuel = 5001 →
      (genLoop g 1 memLow fuel s).history = [] ∧
      (genLoop g 1 memLow fuel s).batch.length = 5001 := by
  intro fuel
  induction fuel with
  | zero =>
    intro n s h hn
    obtain ⟨-, hhist, hblen, -⟩ := h
    have hn1 : n = 5001 := by omega
    subst hn1
    exact ⟨hhist, hblen⟩
  | succ f ih =>
    intro n s h hn
    obtain ⟨⟨m, hms, hc2, hc3, hc4, hc5, hc6, hc7, hcomp⟩, hhist, hblen, hts⟩ := h
    unfold genLoop
    have hall : (s.motors.all fun m2 => s.completed m2.motor_id) = false := by
      rw [hms]
      simp [hcomp]
    rw [if_neg (by rw [hall]; simp)]
    have hmemc : ¬ (s.global_timestep % 5000 = 0 ∧ 0 < s.global_timestep ∧
        ¬ checkMemoryLimits (memLow s.global_timestep) s.history.length = true) := by
      rintro ⟨-, -, hbad⟩
      apply hbad
      rw [hhist]
      show checkMemoryLimits (memLow s.global_timestep) ([] : List Record).length = true
      unfold checkMemoryLimits memLow
      norm_num
    rw [if_neg hmemc]
    exact ih (n + 1) (genIter g 1 s)
      (stage0RunInv_step g 1 n s (by omega)
        ⟨⟨m, hms, hc2, hc3, hc4, hc5, hc6, hc7, hcomp⟩, hhist, hblen, hts⟩)
      (by omega)

lemma genLoop_memHigh (g : ℕ → ℝ) :
    ∀ (fuel n : ℕ) (s : GenState), stage0RunInv n s → n + fuel = 5001 → n ≤ 5000 →
      (genLoop g 1 memHigh fuel s).history = [] ∧
      (genLoop g 1 memHigh fuel s).batch.length = 5000 := by
  intro fuel
  induction fuel with
  | zero =>
    intro n s _ hn hn5
    omega
  | succ f ih =>
    intro n s h hn hn5
    obtain ⟨⟨m, hms, hc2, hc3, hc4, hc5, hc6, hc7, hcomp⟩, hhist, hblen, hts⟩ := h
    unfold genLoop
    have hall : (s.motors.all fun m2 => s.completed m2.motor_id) = false := by
      rw [hms]
      simp [hcomp]
    rw [if_neg (by rw [hall]; simp)]
    by_cases hend : n = 5000
    · have hcond : s.global_timestep % 5000 = 0 ∧ 0 < s.global_timestep ∧
          ¬ checkMemoryLimits (memHigh s.global_timestep) s.history.length = true := by
        rw [hts, hend, hhist]
        refine ⟨by norm_num, by norm_num, ?_⟩
        show ¬ checkMemoryLimits (memHigh 5000) ([] : List Record).length = true
        unfold checkMemoryLimits memHigh
        norm_num
      rw [if_pos hcond]
      exact ⟨hhist, by rw [hblen, hend]⟩
    · have hcond : ¬ (s.global_timestep % 5000 = 0 ∧ 0 < s.global_timestep ∧
          ¬ checkMemoryLimits (memHigh s.global_timestep) s.history.length = true) := by
        rintro ⟨hc1, hcp, -⟩
        rw [hts] at hc1 hcp
        omega
      rw [if_neg hcond]
      exact ih (n + 1) (genIter g 1 s)
        (stage0RunInv_step g 1 n s (by omega)
          ⟨⟨m, hms, hc2, hc3, hc4, hc5, hc6, hc7, hcomp⟩, hhist, hblen, hts⟩)
        (by omega) (by omega)

lemma batchInit_inv : stage0RunInv 0
    { motors := (resetAllMotors zeroG [motor0] 0).1
      regime := "normal"
      cycles := fun _ => 0
      completed := fun _ => false
      history := []
      batch := []
      current_time := 0
      global_timestep := 0
      k := (resetAllMotors zeroG [motor0] 0).2 } := by
  refine ⟨⟨(resetHealthOnly zeroG motor0 0).1, rfl, rfl, ?_, ?_, ?_, ?_, rfl, rfl⟩,
    rfl, rfl, rfl⟩
  · show motor0.state.stage_0_duration_hours = 700
    simp only [motor0, createMotor, npUniform, zeroG, Config.minHoursToCritical,
      Config.maxHoursToCritical, Config.stage0MinPct, Config.stage0MaxPct,
      batchConfig, REALISTIC_CONFIG]
    norm_num
  · show motor0.state.stage_1_duration_hours = 120
    simp only [motor0, createMotor, npUniform, zeroG, Config.minHoursToCritical,
      Config.maxHoursToCritical, Config.stage1MinPct, Config.stage1MaxPct,
      batchConfig, REALISTIC_CONFIG]
    norm_num
  · show motor0.state.stage_2_duration_hours = 180
    simp only [motor0, createMotor, npUniform, zeroG, Config.minHoursToCritical,
      Config.maxHoursToCritical, Config.stage0MinPct, Config.stage0MaxPct,
      Config.stage1MinPct, Config.stage1MaxPct, batchConfig, REALISTIC_CONFIG]
    norm_num
  · show (0 : ℝ) = (0 : ℕ) * (5 / 60)
    norm_num

lemma generate_memLow_length :
    (generateUntilAllCritical zeroG 1 memLow 5001 [motor0] "normal" 0).history.length =
      5001 := by
  unfold generateUntilAllCritical
  dsimp only
  obtain ⟨hh, hb⟩ := genLoop_memLow zeroG 5001 0 _ batchInit_inv (by omega)
  rw [List.length_append, hh, hb]
  rfl

lemma generate_memHigh_length :
    (generateUntilAllCritical zeroG 1 memHigh 5001 [motor0] "normal" 0).history.length =
      5000 := by
  unfold generateUntilAllCritical
  dsimp only
  obtain ⟨hh, hb⟩ := genLoop_memHigh zeroG 5001 0 _ batchInit_inv (by omega) (by omega)
  rw [List.length_append, hh, hb]
  rfl

/-- C1 counterexample: two runs of the batch generation routine with the same
run configuration, the same seed stream, the same entry state and the same
step ceiling produce different outputs when the psutil resident-set-size
readings differ: the run seeing 13 GB RSS is stopped by the memory guard at
global timestep 5000 and returns 5000 records, the run seeing low RSS
returns 5001.  The stopping point is therefore not a function of
(run_config, seed). -/
theorem C1_determinism_counterexample :
    (generateUntilAllCritical zeroG 1 memLow 5001 [motor0] "normal" 0).history ≠
      (generateUntilAllCritical zeroG 1 memHigh 5001 [motor0] "normal" 0).history := by
  intro he
  have h1 := generate_memLow_length
  have h2 := generate_memHigh_length
  rw [he] at h1
  omega

/-- C1 amended: with the PRNG stream fixed by the seed, the batch generation
routine is a pure function of the run configuration, the entry state, the
step ceiling and the memory-guard readings; two runs whose memory-guard
readings agree (in particular, runs on which the guard never fires) produce
identical outputs, record by record and field by field. -/
theorem C1_determinism_modulo_memory_guard (g : ℕ → ℝ) (target : ℕ) (mem₁ mem₂ : ℕ → ℝ)
    (maxSteps : ℕ) (motors : List Motor) (regime : String) (k : ℕ) (hmem : mem₁ = mem₂) :
    generateUntilAllCritical g target mem₁ maxSteps motors regime k =
      generateUntilAllCritical g target mem₂ maxSteps motors regime k := by
  rw [hmem]

/-- Witness for the amended C1. -/
theorem C1_determinism_modulo_memory_guard_witness :
    generateUntilAllCritical zeroG 1 memLow 3 [motor0] "normal" 0 =
      generateUntilAllCritical zeroG 1 memLow 3 [motor0] "normal" 0 :=
  C1_determinism_modulo_memory_guard zeroG 1 memLow memLow 3 [motor0] "normal" 0 rfl

end MotorSim
